import Mathlib

/-!
Shallow embedding of the model-invocation / response-reconciliation core of
the Equity-Insights repository (the Gemini service module): the retry
executor `retryOperation`, the error normalizer `handleApiError`, the
response-extraction pipeline inlined in each report orchestrator
(`generateAnalysis`, `getMarketOverview`, `screenStocks`, `fetchIPOList`,
`generateIPOReport`, `generateChatResponseLite`,
`generateChatResponseDetailed`), the module-level caches, `getCacheKey`,
and `getScreenerState`.

Modelling conventions:
  * JavaScript dynamic values produced by `JSON.parse` and read by property
    access are modelled by the inductive type `JVal`; the JavaScript value
    `undefined` is `JVal.jundefined` (property access on a non-object yields it).
  * Thrown JavaScript failures are modelled by the structure `JSError` with
    optional fields, covering at once `Error` instances (message only),
    SDK transport errors (status / code / message), `SyntaxError` from
    `JSON.parse` (flag `isParseFailure`), and the plain `AnalysisError`
    descriptor objects `{title, message, details?, isRetryable}` the module
    throws deliberately.
  * `JSON.parse` is modelled by `jsonParse`, a fuel-indexed recursive-descent
    parser over strings.  Numeric literals are modelled as integers
    (fraction / exponent forms never arise in the texts the claims are
    about), `\u` escapes are modelled for non-surrogate scalars, and the
    engine-specific wording of `SyntaxError` messages (which can embed a
    character position) is modelled as the single fixed message of
    `parseFailureError`, with the `isParseFailure` flag carrying the
    classification information.
  * `Date.now()` is modelled by explicit integer-time parameters: `now1` is
    the reading taken at the top of an orchestrator and `now2` the reading
    taken when a fresh result is stored (the two adjacent store-time calls
    are modelled as the same instant).
  * The asynchronous model call `() => ai.models.generateContent(...)` is
    modelled as a function `net : Nat → Except JSError (Option String)`
    giving, for each invocation index, either the thrown failure or the
    `response.text` value (`none` models an `undefined` text field).
  * `localStorage` persistence (`loadCache` / `saveCache`) is modelled by
    the two storage slots of `CoreState`, holding the decoded
    `{data, timestamp}` pair.
-/

/-- JavaScript value as produced by `JSON.parse`, plus `undefined`. -/
inductive JVal where
  | jundefined : JVal
  | jnull : JVal
  | jbool : Bool → JVal
  | jnum : Int → JVal
  | jstr : String → JVal
  | jarr : List JVal → JVal
  | jobj : List (String × JVal) → JVal

/-- JavaScript truthiness of a `JVal` (`undefined`, `null`, `false`, `0`
and the empty string are falsy; arrays and objects are always truthy). -/
def JVal.truthy : JVal → Bool
  | .jundefined => false
  | .jnull => false
  | .jbool b => b
  | .jnum n => n != 0
  | .jstr s => s != ""
  | .jarr _ => true
  | .jobj _ => true

/-- Looks up the last binding of a key in an object field list (later
duplicate keys win, as in `JSON.parse`). -/
def lookupField (fs : List (String × JVal)) (k : String) : JVal :=
  fs.foldl (fun acc kv => if kv.1 = k then kv.2 else acc) JVal.jundefined

/-- JavaScript property access `v[k]`: field of an object, `undefined`
otherwise (all uses in the source are guarded by truthiness checks, so the
`TypeError` on `null`/`undefined` receivers never fires). -/
def JVal.getField : JVal → String → JVal
  | .jobj fs, k => lookupField fs k
  | _, _ => .jundefined

/-- Whether the character list `pat` occurs at the head of `s`. -/
def headMatches : List Char → List Char → Bool
  | [], _ => true
  | _ :: _, [] => false
  | p :: ps, c :: cs => p = c ∧ headMatches ps cs

/-- Whether `pat` occurs anywhere in `s` (character-list scan). -/
def listIncludes (pat s : List Char) : Bool :=
  match s with
  | [] => headMatches pat []
  | _ :: rest => headMatches pat s ∨ listIncludes pat rest

/-- Substring membership test, modelling JavaScript `String.includes`. -/
def strIncludes (s pat : String) : Bool :=
  listIncludes pat.data s.data

/-- Fuel-indexed global replace on character lists (left-to-right,
non-overlapping), modelling `String.replace(/pat/g, rep)` for a non-empty
literal pattern; the fuel is always instantiated to the input length. -/
def replaceFuel (rep pat : List Char) : Nat → List Char → List Char
  | 0, s => s
  | _ + 1, [] => []
  | fuel + 1, c :: rest =>
    if headMatches pat (c :: rest) then rep ++ replaceFuel rep pat fuel ((c :: rest).drop pat.length)
    else c :: replaceFuel rep pat fuel rest

/-- JavaScript `String.replace(/pat/g, rep)` for literal patterns. -/
def jsReplaceAll (s pat rep : String) : String :=
  ⟨replaceFuel rep.data pat.data s.data.length s.data⟩

/-- The whitespace predicate used by the trim model. -/
def ws : Char → Bool := Char.isWhitespace

/-- Trimming of leading and trailing whitespace on a character list. -/
def listTrim (l : List Char) : List Char :=
  ((l.dropWhile ws).reverse.dropWhile ws).reverse

/-- JavaScript `String.trim`, modelled directly on the character list. -/
def jsTrim (s : String) : String :=
  ⟨listTrim s.data⟩

/-- ASCII lower-casing of one character, written as an explicit case
split. -/
def charLower (c : Char) : Char :=
  match c with
  | 'A' => 'a' | 'B' => 'b' | 'C' => 'c' | 'D' => 'd' | 'E' => 'e' | 'F' => 'f'
  | 'G' => 'g' | 'H' => 'h' | 'I' => 'i' | 'J' => 'j' | 'K' => 'k' | 'L' => 'l'
  | 'M' => 'm' | 'N' => 'n' | 'O' => 'o' | 'P' => 'p' | 'Q' => 'q' | 'R' => 'r'
  | 'S' => 's' | 'T' => 't' | 'U' => 'u' | 'V' => 'v' | 'W' => 'w' | 'X' => 'x'
  | 'Y' => 'y' | 'Z' => 'z'
  | d => d

/-- JavaScript `String.toLowerCase` (ASCII case fold; the texts the claims
concern are ASCII). -/
def jsToLower (s : String) : String :=
  ⟨s.data.map charLower⟩

/-- JavaScript `a || b` for an optional string `a` (empty string is falsy). -/
def jsOrStr (a : Option String) (b : String) : String :=
  match a with
  | some s => if s = "" then b else s
  | none => b

/-- JavaScript `a || b` for optional numeric fields (`0` is falsy). -/
def jsOrInt (a b : Option Int) : Option Int :=
  match a with
  | some n => if n = 0 then b else n
  | none => b

/-- Index of the first occurrence of a character, modelling `indexOf`
(`none` models `-1`). -/
def firstIdxOf (s : String) (c : Char) : Option Nat :=
  s.data.findIdx? (fun d => d = c)

/-- Index of the last occurrence of a character, modelling `lastIndexOf`. -/
def lastIdxOf (s : String) (c : Char) : Option Nat :=
  match (s.data.reverse.findIdx? (fun d => d = c)) with
  | some j => some (s.data.length - 1 - j)
  | none => none

/-- JavaScript `String.substring(a, b)`: the arguments are swapped when
`a > b` (indices here are always within bounds at the call sites). -/
def jsSubstring (s : String) (a b : Nat) : String :=
  if a ≤ b then ⟨(s.data.drop a).take (b - a)⟩
  else ⟨(s.data.drop b).take (a - b)⟩

/-- Code-fence stripping step shared by all orchestrators:
`text.replace(/```json/g, '').replace(/```/g, '').trim()`. -/
def stripFences (s : String) : String :=
  jsTrim (jsReplaceAll (jsReplaceAll s ("```json") ("")) ("```") (""))

/-- Skips JSON whitespace. -/
def skipWs (cs : List Char) : List Char :=
  cs.dropWhile (fun c => c = ' ' ∨ c = '\t' ∨ c = '\n' ∨ c = '\x0d')

/-- Decodes one hexadecimal digit. -/
def hexDigit (c : Char) : Option Nat :=
  if '0' ≤ c ∧ c ≤ '9' then some (c.toNat - 48)
  else if 'a' ≤ c ∧ c ≤ 'f' then some (c.toNat - 87)
  else if 'A' ≤ c ∧ c ≤ 'F' then some (c.toNat - 55)
  else none

/-- Parses the body of a JSON string literal after the opening quote,
returning the decoded characters and the remainder after the closing
quote. -/
def parseStrBody : List Char → List Char → Option (String × List Char)
  | acc, '"' :: rest => some (⟨acc.reverse⟩, rest)
  | acc, '\\' :: e :: rest =>
    match e with
    | '"' => parseStrBody ('"' :: acc) rest
    | '\\' => parseStrBody ('\\' :: acc) rest
    | '/' => parseStrBody ('/' :: acc) rest
    | 'n' => parseStrBody ('\n' :: acc) rest
    | 't' => parseStrBody ('\t' :: acc) rest
    | 'r' => parseStrBody ('\x0d' :: acc) rest
    | 'b' => parseStrBody ('\x08' :: acc) rest
    | 'f' => parseStrBody ('\x0c' :: acc) rest
    | 'u' =>
      match rest with
      | h1 :: h2 :: h3 :: h4 :: rest2 =>
        match hexDigit h1, hexDigit h2, hexDigit h3, hexDigit h4 with
        | some a, some b, some c, some d =>
          let n := ((a * 16 + b) * 16 + c) * 16 + d
          if h : n.isValidChar then parseStrBody (Char.ofNatAux n h :: acc) rest2
          else none
        | _, _, _, _ => none
      | _ => none
    | _ => none
  | acc, c :: rest =>
    if c.toNat < 32 then none else parseStrBody (c :: acc) rest
  | _, [] => none

/-- Parses a run of decimal digits into a natural number. -/
def parseDigits : Nat → List Char → Nat × List Char
  | acc, c :: rest =>
    if '0' ≤ c ∧ c ≤ '9' then parseDigits (acc * 10 + (c.toNat - 48)) rest
    else (acc, c :: rest)
  | acc, [] => (acc, [])

/-- Mode of the JSON parser loop: a single value, the remaining items of an
array, or the remaining fields of an object. -/
inductive PMode where
  | val : PMode
  | arr : List JVal → PMode
  | obj : List (String × JVal) → PMode

/-- Fuel-indexed recursive-descent JSON parser; `none` models a thrown
`SyntaxError`. -/
def parseRun : Nat → PMode → List Char → Option (JVal × List Char)
  | 0, _, _ => none
  | fuel + 1, .val, cs0 =>
    match skipWs cs0 with
    | 'n' :: 'u' :: 'l' :: 'l' :: rest => some (.jnull, rest)
    | 't' :: 'r' :: 'u' :: 'e' :: rest => some (.jbool true, rest)
    | 'f' :: 'a' :: 'l' :: 's' :: 'e' :: rest => some (.jbool false, rest)
    | '"' :: rest =>
      match parseStrBody [] rest with
      | some (s, rest2) => some (.jstr s, rest2)
      | none => none
    | '-' :: c :: rest =>
      if '0' ≤ c ∧ c ≤ '9' then
        match parseDigits (c.toNat - 48) rest with
        | (n, rest2) => some (.jnum (-(n : Int)), rest2)
      else none
    | '[' :: rest =>
      match skipWs rest with
      | ']' :: rest2 => some (.jarr [], rest2)
      | _ => parseRun fuel (.arr []) rest
    | '{' :: rest =>
      match skipWs rest with
      | '}' :: rest2 => some (.jobj [], rest2)
      | _ => parseRun fuel (.obj []) rest
    | c :: rest =>
      if '0' ≤ c ∧ c ≤ '9' then
        match parseDigits (c.toNat - 48) rest with
        | (n, rest2) => some (.jnum (n : Int), rest2)
      else none
    | [] => none
  | fuel + 1, .arr acc, cs =>
    match parseRun fuel .val cs with
    | some (v, rest) =>
      match skipWs rest with
      | ',' :: rest2 => parseRun fuel (.arr (v :: acc)) rest2
      | ']' :: rest2 => some (.jarr (v :: acc).reverse, rest2)
      | _ => none
    | none => none
  | fuel + 1, .obj acc, cs =>
    match skipWs cs with
    | '"' :: rest =>
      match parseStrBody [] rest with
      | some (k, rest2) =>
        match skipWs rest2 with
        | ':' :: rest3 =>
          match parseRun fuel .val rest3 with
          | some (v, rest4) =>
            match skipWs rest4 with
            | ',' :: rest5 => parseRun fuel (.obj ((k, v) :: acc)) rest5
            | '}' :: rest5 => some (.jobj ((k, v) :: acc).reverse, rest5)
            | _ => none
          | none => none
        | _ => none
      | none => none
    | _ => none

/-- Model of `JSON.parse`: parses one JSON value and requires that only
whitespace follows it. -/
def jsonParse (s : String) : Option JVal :=
  match parseRun (2 * s.data.length + 2) .val s.data with
  | some (v, rest) => if skipWs rest = [] then some v else none
  | none => none

example : jsonParse ("\x7b\"a\":1\x7d") = some (.jobj [("a", .jnum 1)]) := rfl
example : jsonParse ("1") = some (.jnum 1) := rfl
example : jsonParse ("") = none := rfl
example : jsonParse ("\x7b\"error\":\x7b\"code\":400,\"message\":\"Bad ticker\"\x7d\x7d") =
    some (.jobj [("error", .jobj [("code", .jnum 400), ("message", .jstr "Bad ticker")])]) :=
  rfl
example : jsonParse ("\x7b\"a\":[1,-2,true,null,\"x\"]\x7d") =
    some (.jobj [("a", .jarr [.jnum 1, .jnum (-2), .jbool true, .jnull, .jstr "x"])]) := rfl
example : strIncludes ("hello world") ("lo w") = true := rfl
example : strIncludes ("hello") ("z") = false := rfl
example : stripFences ("Sure! ```json\n\x7b\"a\":1\x7d\n```") = "Sure! \n\x7b\"a\":1\x7d" := rfl

/-- Thrown JavaScript failure: a single shape with optional fields covering
`Error` instances, SDK transport errors, `SyntaxError` (via
`isParseFailure`) and the deliberately thrown `AnalysisError` descriptor
objects of the module. -/
structure JSError where
  status : Option Int := none
  code : Option Int := none
  message : Option String := none
  title : Option String := none
  details : Option String := none
  isRetryable : Option Bool := none
  isParseFailure : Bool := false
deriving Repr, DecidableEq

/-- The JavaScript value `undefined` thrown by `throw lastError` when the
retry loop never ran (only reachable with `maxRetries = 0`). -/
def undefinedError : JSError := {}

/-- JavaScript `String(error)` for the non-`Error` failure objects of the
module, used only as a diagnostics fallback when `error.message` is falsy. -/
def jsStringOfError (_ : JSError) : String := "[object Object]"

/-- Takes the longest initial segment of a line (JavaScript regex `.`
matches neither `\n` nor `\r`). -/
def lineSeg (cs : List Char) : List Char :=
  cs.takeWhile (fun c => c ≠ '\n' ∧ c ≠ '\x0d')

/-- Index of the last occurrence of a character in a character list. -/
def lastIdxOfList (cs : List Char) (c : Char) : Option Nat :=
  match (cs.reverse.findIdx? (fun d => d = c)) with
  | some j => some (cs.length - 1 - j)
  | none => none

/-- Scan of the regex engine for `/\x7b.*\x7d/`: at the first `\x7b` that is
followed by a `\x7d` on the same line, the greedy match runs to the last
`\x7d` on that line; otherwise the start position advances. -/
def braceScan : List Char → Option (List Char)
  | [] => none
  | '{' :: rest =>
    match lastIdxOfList (lineSeg rest) '}' with
    | some k => some ('{' :: (lineSeg rest).take (k + 1))
    | none => braceScan rest
  | _ :: rest => braceScan rest

/-- Model of `message.match(/\x7b.*\x7d/)`, returning the matched text. -/
def jsRegexBraceMatch (s : String) : Option String :=
  (braceScan s.data).map (fun l => (⟨l⟩ : String))

/-- Outcome of the failure-classification prologue of the retry loop
(lines 57-83 of the service module): the possibly patched error object and
the local `status` / `msg` variables used by the retryability checks. -/
structure RetryClass where
  patched : JSError
  status : Option Int
  msg : String
deriving Repr, DecidableEq

/-- Per-failure classification prologue of `retryOperation`: recover an
embedded status code / message from a serialized error body inside
`error.message`, patching the error object so `handleApiError` sees the
corrected code later. -/
def unwrapRetry (e : JSError) : RetryClass :=
  let status0 := jsOrInt e.status e.code
  let msg0 := jsToLower (jsOrStr e.message (""))
  match e.message with
  | none => ⟨e, status0, msg0⟩
  | some m =>
    match jsRegexBraceMatch m with
    | none => ⟨e, status0, msg0⟩
    | some blob =>
      match jsonParse blob with
      | none => ⟨e, status0, msg0⟩
      | some parsed =>
        let errF := parsed.getField ("error")
        if errF.truthy then
          let status1 : Option Int :=
            match errF.getField ("code") with
            | .jnum n => if n = 0 then status0 else some n
            | _ => status0
          let pmsg : Option String :=
            match errF.getField ("message") with
            | .jstr s => if s = "" then none else some s
            | _ => none
          let msg1 := match pmsg with
            | some s => jsToLower s
            | none => msg0
          ⟨{ e with status := status1, message := some (pmsg.getD m) }, status1, msg1⟩
        else ⟨e, status0, msg0⟩

/-- Retryable-condition check for quota exhaustion (429). -/
def isQuotaC (rc : RetryClass) : Bool :=
  rc.status == some 429 || strIncludes rc.msg ("quota") ||
    strIncludes rc.msg ("resource_exhausted") || strIncludes rc.msg ("429")

/-- Retryable-condition check for transient server failures (503 / 500 /
overloaded). -/
def isServerC (rc : RetryClass) : Bool :=
  rc.status == some 503 || rc.status == some 500 || strIncludes rc.msg ("overloaded")

/-- Observable outcome of `retryOperation`: the returned value or thrown
failure, the number of invocations of the operation, and the list of
backoff waits (in ms) performed between invocations. -/
structure RetryOutcome (α : Type) where
  result : Except JSError α
  calls : Nat
  waits : List Nat

/-- The retry loop of `retryOperation`; the fuel argument is instantiated
to the remaining iteration count, so the `0` case is reached only when the
loop never runs (`maxRetries = 0`, modelling `throw lastError` with
`lastError` still `undefined`). -/
def retryGo {α : Type} (op : Nat → Except JSError α) (maxRetries initialDelay : Nat) :
    Nat → Nat → List Nat → RetryOutcome α
  | 0, i, waits => ⟨.error undefinedError, i, waits⟩
  | fuel + 1, i, waits =>
    match op i with
    | .ok v => ⟨.ok v, i + 1, waits⟩
    | .error e =>
      let rc := unwrapRetry e
      if ((isQuotaC rc || isServerC rc) && decide (i < maxRetries - 1)) then
        retryGo op maxRetries initialDelay fuel (i + 1)
          (waits ++ [(if isQuotaC rc then 5000 else initialDelay) * 2 ^ i])
      else ⟨.error rc.patched, i + 1, waits⟩

/-- Model of `retryOperation(operation, maxRetries, initialDelay)`:
bounded retries with exponential backoff for quota / transient server
failures, all other failures propagating immediately. -/
def retryOperation {α : Type} (op : Nat → Except JSError α)
    (maxRetries initialDelay : Nat) : RetryOutcome α :=
  retryGo op maxRetries initialDelay maxRetries 0 []

/-- JavaScript truthiness of an optional string field (`undefined` and the
empty string are falsy). -/
def optStrTruthy : Option String → Bool
  | some m => m != ""
  | none => false

/-- The check `error.title && error.message && error.isRetryable !==
undefined` guarding the pass-through branch of `handleApiError`; it is also
exactly the "ErrorDescriptor shape" of the specification (title, message
and an explicit retry flag). -/
def descriptorShaped (e : JSError) : Bool :=
  optStrTruthy e.title && optStrTruthy e.message && e.isRetryable.isSome

/-- Nested-error unwrap of `handleApiError` (lines 105-114): unlike the
retry-loop variant, `error.status` is patched only when the embedded code
is truthy. -/
def patchHandle (e : JSError) : JSError :=
  match e.message with
  | none => e
  | some m =>
    match jsRegexBraceMatch m with
    | none => e
    | some blob =>
      match jsonParse blob with
      | none => e
      | some parsed =>
        if (parsed.getField ("error")).truthy then
          { e with
              status :=
                match (parsed.getField ("error")).getField ("code") with
                | .jnum n => if n = 0 then e.status else some n
                | _ => e.status,
              message :=
                match (parsed.getField ("error")).getField ("message") with
                | .jstr s => if s = "" then e.message else some s
                | _ => e.message }
        else e

/-- Status/keyword classification table of `handleApiError` (applied to the
already-patched failure when the pass-through check does not fire): the
default "Analysis Failed" descriptor with `details` carrying the raw
message, specialized by the first matching status code / case-insensitive
keyword rule. -/
def classifyError (e : JSError) : JSError :=
  let status := jsOrInt e.status e.code
  let msg := jsToLower (jsOrStr e.message (""))
  let details : Option String := some (jsOrStr e.message (jsStringOfError e))
  if strIncludes msg ("failed to fetch") || strIncludes msg ("networkerror") ||
      strIncludes msg ("network") then
    { title := some ("Network Connection Error"),
      message := some ("Unable to connect to the server. Please check your internet connection or try again later."),
      details := details, isRetryable := some true }
  else if status == some 400 || strIncludes msg ("400") || strIncludes msg ("invalid argument") then
    { title := some ("Invalid Request"),
      message := some ("The request was rejected. This might be due to an invalid ticker symbol or safety filters triggering."),
      details := details, isRetryable := some false }
  else if status == some 401 || strIncludes msg ("401") || strIncludes msg ("api key") then
    { title := some ("Authentication Error"),
      message := some ("Invalid API Key. Please ensure your API_KEY is correctly set in the environment."),
      details := details, isRetryable := some false }
  else if status == some 403 || strIncludes msg ("403") then
    { title := some ("Permission Denied"),
      message := some ("Your API key does not have access to the required model or region."),
      details := details, isRetryable := some false }
  else if status == some 404 || strIncludes msg ("404") then
    { title := some ("Resource Not Found"),
      message := some ("The requested AI model version might be deprecated or unavailable."),
      details := details, isRetryable := some false }
  else if status == some 429 || strIncludes msg ("429") || strIncludes msg ("quota") ||
      strIncludes msg ("resource_exhausted") then
    { title := some ("Rate Limit Exceeded"),
      message := some ("You have hit the API quota limit. Please wait a minute before trying again, or check your billing details."),
      details := details, isRetryable := some true }
  else if status == some 500 || strIncludes msg ("500") then
    { title := some ("Server Error"),
      message := some ("Google\x27s AI servers encountered an internal error. Please try again later."),
      details := details, isRetryable := some true }
  else if status == some 503 || strIncludes msg ("503") || strIncludes msg ("overloaded") then
    { title := some ("Service Overloaded"),
      message := some ("The Gemini API is currently experiencing high traffic. Please retry in a few moments."),
      details := details, isRetryable := some true }
  else if e.isParseFailure || strIncludes msg ("json") || strIncludes msg ("parse") then
    { title := some ("Data Parsing Error"),
      message := some ("The AI response could not be processed correctly. This is usually a temporary glitch."),
      details := details, isRetryable := some true }
  else
    { title := some ("Analysis Failed"),
      message := some ("An unexpected error occurred while generating the report."),
      details := details, isRetryable := some true }

/-- Model of `handleApiError`: unwraps an embedded error body, passes
through failures already shaped as an `ErrorDescriptor`, and otherwise
classifies by status code / case-insensitive keyword into the fixed
user-facing taxonomy.  The function in the source always throws; the model
returns the thrown value. -/
def handleApiError (e0 : JSError) : JSError :=
  if descriptorShaped (patchHandle e0) then patchHandle e0
  else classifyError (patchHandle e0)

example : (unwrapRetry { status := some 429 }).status = some 429 := rfl
example :
    (unwrapRetry { status := some 400,
                   message := some ("fail: \x7b\"error\":\x7b\"code\":400,\"message\":\"Bad\"\x7d\x7d") }).patched.message =
      some ("Bad") := rfl
example :
    (handleApiError { status := some 503, message := some ("model overloaded") }).title =
      some ("Service Overloaded") := rfl
example :
    (handleApiError { status := some 503, message := some ("model overloaded") }).isRetryable =
      some true := rfl
example :
    handleApiError { title := some ("T"), message := some ("m"), isRetryable := some false } =
      { title := some ("T"), message := some ("m"), isRetryable := some false } := rfl

/-- Module-level cache TTL for the market overview (5 minutes, in ms). -/
def MARKET_CACHE_TTL : Int := 5 * 60 * 1000

/-- Module-level cache TTL for screener results (15 minutes, in ms). -/
def SCREENER_CACHE_TTL : Int := 15 * 60 * 1000

/-- Module-level cache TTL for the IPO list (60 minutes, in ms). -/
def IPO_CACHE_TTL : Int := 60 * 60 * 1000

/-- Module-level mutable state of the service module: the three caches,
the last screener query, and the two persisted `localStorage` slots
(modelled as the decoded `\x7bdata, timestamp\x7d` pair). -/
structure CoreState where
  marketCache : Option (JVal × Int)
  screenerCache : List (String × (JVal × Int))
  lastScreenerQuery : Option String
  ipoListCache : Option (JVal × Int)
  storageMarket : Option (JVal × Int)
  storageIpo : Option (JVal × Int)

/-- `Map.set` on the association-list model of the screener cache:
overwrites the entry for the key in place, otherwise appends. -/
def setAssoc (l : List (String × (JVal × Int))) (k : String) (v : JVal × Int) :
    List (String × (JVal × Int)) :=
  match l with
  | [] => [(k, v)]
  | (k0, v0) :: rest => if k0 = k then (k, v) :: rest else (k0, v0) :: setAssoc rest k v

/-- Observable outcome of one orchestrator call: the resolved value or the
surfaced failure, the module state afterwards, and the number of
invocations of the model operation. -/
structure FetchResult where
  result : Except JSError JVal
  state : CoreState
  calls : Nat

/-- The non-retryable missing-credential descriptor thrown before any
network attempt. -/
def missingKeyError : JSError :=
  { title := some ("Missing API Key"), message := some ("API Key is not configured."),
    isRetryable := some false }

/-- Model of a `SyntaxError` thrown by `JSON.parse` (fixed message; the
`isParseFailure` flag carries the classification information). -/
def parseFailureError : JSError :=
  { message := some ("Unexpected token in JSON"), isParseFailure := true }

/-- Model of `new Error(m)`. -/
def plainError (m : String) : JSError := { message := some m }

/-- The fixed refusal phrases of the entity-not-found heuristic in
`generateAnalysis`. -/
def refusalPatterns : List String :=
  ["cannot find", "unable to find", "no data available",
   "doesn\x27t exist", "don\x27t have information", "valid ticker", "not a valid"]

/-- Refusal heuristic: the stripped text is short (under 500 characters)
and contains one of the refusal phrases case-insensitively. -/
def isRefusalText (t : String) : Bool :=
  decide (t.data.length < 500) && refusalPatterns.any (fun p => strIncludes (jsToLower t) p)

/-- The dedicated entity-not-found descriptor thrown by `generateAnalysis`
(carrying the stripped response text as `details`). -/
def refusalError (ticker text : String) : JSError :=
  { title := some ("Ticker Not Found"),
    message := some ("Unable to generate a report for \x27" ++ ticker ++
      "\x27. The ticker symbol might be incorrect, delisted, or not supported by the available data sources."),
    details := some text, isRetryable := some false }

/-- Model of `generateAnalysis`: credential check, retry-wrapped model
call, fence stripping, refusal heuristic, brace-delimited JSON extraction;
never touches any cache.  The `ticker` parameter stands for
`params.ticker`; the remaining search parameters only influence the prompt
text and are omitted. -/
def generateAnalysis (apiKey ticker : String) (st : CoreState)
    (net : Nat → Except JSError (Option String)) : FetchResult :=
  if apiKey = "" then ⟨.error missingKeyError, st, 0⟩
  else
    let r := retryOperation net 3 2000
    match r.result with
    | .error e => ⟨.error (handleApiError e), st, r.calls⟩
    | .ok t0 =>
      let text := stripFences (jsOrStr t0 (""))
      if isRefusalText text then
        ⟨.error (handleApiError (refusalError ticker text)), st, r.calls⟩
      else
        match firstIdxOf text '{', lastIdxOf text '}' with
        | some fb, some lb =>
          match jsonParse (jsSubstring text fb (lb + 1)) with
          | some v => ⟨.ok v, st, r.calls⟩
          | none => ⟨.error (handleApiError parseFailureError), st, r.calls⟩
        | _, _ =>
          ⟨.error (handleApiError (plainError
            ("Failed to parse analysis: Invalid JSON structure received."))), st, r.calls⟩

/-- Fetch path of `getMarketOverview` (cache miss or forced refresh):
retry-wrapped call, empty-response check, extraction, then cache update
and persistence. -/
def marketFetch (st : CoreState) (now2 : Int)
    (net : Nat → Except JSError (Option String)) : FetchResult :=
  let r := retryOperation net 3 2000
  match r.result with
  | .error e => ⟨.error (handleApiError e), st, r.calls⟩
  | .ok t0 =>
    let text0 := jsOrStr t0 ("")
    if text0 = "" then
      ⟨.error (handleApiError (plainError
        ("Empty response received. The AI model might have filtered the content due to safety settings."))),
       st, r.calls⟩
    else
      let text := stripFences text0
      match firstIdxOf text '{', lastIdxOf text '}' with
      | some fb, some lb =>
        match jsonParse (jsSubstring text fb (lb + 1)) with
        | some data =>
          ⟨.ok data,
           { st with marketCache := some (data, now2), storageMarket := some (data, now2) },
           r.calls⟩
        | none => ⟨.error (handleApiError parseFailureError), st, r.calls⟩
      | _, _ =>
        ⟨.error (handleApiError (plainError
          ("Failed to parse market data: Invalid JSON structure."))), st, r.calls⟩

/-- Model of `getMarketOverview(forceRefresh)`: serves the cached market
brief while its age is under the 5-minute TTL, otherwise fetches
afresh. -/
def getMarketOverview (apiKey : String) (force : Bool) (st : CoreState) (now1 now2 : Int)
    (net : Nat → Except JSError (Option String)) : FetchResult :=
  if apiKey = "" then ⟨.error missingKeyError, st, 0⟩
  else
    match st.marketCache with
    | some dt =>
      if !force && decide (now1 - dt.2 < MARKET_CACHE_TTL) then ⟨.ok dt.1, st, 0⟩
      else marketFetch st now2 net
    | none => marketFetch st now2 net

/-- Cache-key normalization for screener queries: trim then case-fold
(`query.trim().toLowerCase()`). -/
def getCacheKey (query : String) : String := jsToLower (jsTrim query)

/-- Fetch path of `screenStocks` (cache miss or forced refresh): the
parsed object's `matches` field is cached under the normalized key and the
original query string is retained in `lastScreenerQuery`. -/
def screenerFetch (query cacheKey : String) (st : CoreState) (now2 : Int)
    (net : Nat → Except JSError (Option String)) : FetchResult :=
  let r := retryOperation net 3 2000
  match r.result with
  | .error e => ⟨.error (handleApiError e), st, r.calls⟩
  | .ok t0 =>
    let text := stripFences (jsOrStr t0 (""))
    match firstIdxOf text '{', lastIdxOf text '}' with
    | some fb, some lb =>
      match jsonParse (jsSubstring text fb (lb + 1)) with
      | some j =>
        ⟨.ok (j.getField ("matches")),
         { st with
             screenerCache := setAssoc st.screenerCache cacheKey (j.getField ("matches"), now2),
             lastScreenerQuery := some query },
         r.calls⟩
      | none => ⟨.error (handleApiError parseFailureError), st, r.calls⟩
    | _, _ =>
      ⟨.error (handleApiError (plainError ("Failed to parse screener results."))), st, r.calls⟩

/-- Model of `screenStocks(query, forceRefresh)`: cache lookup under the
normalized key (15-minute TTL), recording the original query on both the
hit and the fresh-fetch path. -/
def screenStocks (apiKey query : String) (force : Bool) (st : CoreState) (now1 now2 : Int)
    (net : Nat → Except JSError (Option String)) : FetchResult :=
  if apiKey = "" then ⟨.error missingKeyError, st, 0⟩
  else
    match List.lookup (getCacheKey query) st.screenerCache with
    | some dt =>
      if !force && decide (now1 - dt.2 < SCREENER_CACHE_TTL) then
        ⟨.ok dt.1, { st with lastScreenerQuery := some query }, 0⟩
      else screenerFetch query (getCacheKey query) st now2 net
    | none => screenerFetch query (getCacheKey query) st now2 net

/-- Export used by components to restore the last active screener query:
the original query string paired with the data cached under its normalized
key.  The source guard `if (lastScreenerQuery)` is a JavaScript truthiness
check, so both an unset query and the empty-string query fall through to
`return null`. -/
def getScreenerState (st : CoreState) : Option (String × JVal) :=
  match st.lastScreenerQuery with
  | some q =>
    if q = "" then none
    else
      match List.lookup (getCacheKey q) st.screenerCache with
      | some dt => some (q, dt.1)
      | none => none
  | none => none

/-- Fetch path of `fetchIPOList` (cache miss or forced refresh): the parsed
object's `ipos` field is cached and persisted. -/
def ipoListFetch (st : CoreState) (now2 : Int)
    (net : Nat → Except JSError (Option String)) : FetchResult :=
  let r := retryOperation net 3 2000
  match r.result with
  | .error e => ⟨.error (handleApiError e), st, r.calls⟩
  | .ok t0 =>
    let text := stripFences (jsOrStr t0 (""))
    match firstIdxOf text '{', lastIdxOf text '}' with
    | some fb, some lb =>
      match jsonParse (jsSubstring text fb (lb + 1)) with
      | some j =>
        ⟨.ok (j.getField ("ipos")),
         { st with ipoListCache := some (j.getField ("ipos"), now2),
                   storageIpo := some (j.getField ("ipos"), now2) },
         r.calls⟩
      | none => ⟨.error (handleApiError parseFailureError), st, r.calls⟩
    | _, _ =>
      ⟨.error (handleApiError (plainError ("Failed to parse IPO list."))), st, r.calls⟩

/-- Model of `fetchIPOList(forceRefresh)`: serves the cached IPO list while
its age is under the 1-hour TTL, otherwise fetches afresh. -/
def fetchIPOList (apiKey : String) (force : Bool) (st : CoreState) (now1 now2 : Int)
    (net : Nat → Except JSError (Option String)) : FetchResult :=
  if apiKey = "" then ⟨.error missingKeyError, st, 0⟩
  else
    match st.ipoListCache with
    | some dt =>
      if !force && decide (now1 - dt.2 < IPO_CACHE_TTL) then ⟨.ok dt.1, st, 0⟩
      else ipoListFetch st now2 net
    | none => ipoListFetch st now2 net

/-- Model of `generateIPOReport(ipoName)`: like `generateAnalysis` but with
no refusal heuristic; never touches any cache. -/
def generateIPOReport (apiKey _ipoName : String) (st : CoreState)
    (net : Nat → Except JSError (Option String)) : FetchResult :=
  if apiKey = "" then ⟨.error missingKeyError, st, 0⟩
  else
    let r := retryOperation net 3 2000
    match r.result with
    | .error e => ⟨.error (handleApiError e), st, r.calls⟩
    | .ok t0 =>
      let text := stripFences (jsOrStr t0 (""))
      match firstIdxOf text '{', lastIdxOf text '}' with
      | some fb, some lb =>
        match jsonParse (jsSubstring text fb (lb + 1)) with
        | some v => ⟨.ok v, st, r.calls⟩
        | none => ⟨.error (handleApiError parseFailureError), st, r.calls⟩
      | _, _ =>
        ⟨.error (handleApiError (plainError ("Failed to parse IPO report."))), st, r.calls⟩

/-- Model of `generateChatResponseLite`: throws a raw `Error` (not an
`ErrorDescriptor`) when the key is missing; otherwise always resolves with
a string, swallowing any failure into a fallback message. -/
def generateChatResponseLite (apiKey : String)
    (net : Nat → Except JSError (Option String)) : Except JSError String × Nat :=
  if apiKey = "" then (.error (plainError ("API Key Missing")), 0)
  else
    let r := retryOperation net 3 2000
    match r.result with
    | .ok t => (.ok (jsOrStr t ("I\x27m processing that...")), r.calls)
    | .error _ => (.ok ("I\x27m thinking..."), r.calls)

/-- Model of `generateChatResponseDetailed`: same error behaviour as the
lite variant with different fallback texts. -/
def generateChatResponseDetailed (apiKey : String)
    (net : Nat → Except JSError (Option String)) : Except JSError String × Nat :=
  if apiKey = "" then (.error (plainError ("API Key Missing")), 0)
  else
    let r := retryOperation net 3 2000
    match r.result with
    | .ok t => (.ok (jsOrStr t ("I couldn\x27t generate a detailed response.")), r.calls)
    | .error _ => (.ok ("Sorry, I encountered an error fetching detailed information."), r.calls)

/-- Module initialization: the in-memory market and IPO caches are seeded
from the persisted storage slots, the screener cache starts empty and no
screener query has been served. -/
def initialState (storageM storageI : Option (JVal × Int)) : CoreState :=
  { marketCache := storageM, screenerCache := [], lastScreenerQuery := none,
    ipoListCache := storageI, storageMarket := storageM, storageIpo := storageI }

/-- One state-touching call into the service module, carrying its own
parameters, `Date.now()` readings and network behaviour (the two chat
functions never read or write module state and are omitted). -/
inductive Op where
  | market : Bool → Int → Int → (Nat → Except JSError (Option String)) → Op
  | screen : String → Bool → Int → Int → (Nat → Except JSError (Option String)) → Op
  | ipoListOp : Bool → Int → Int → (Nat → Except JSError (Option String)) → Op
  | analysisOp : String → (Nat → Except JSError (Option String)) → Op
  | ipoReportOp : String → (Nat → Except JSError (Option String)) → Op

/-- Runs one call against the module state. -/
def runOp (apiKey : String) (o : Op) (st : CoreState) : FetchResult :=
  match o with
  | .market f n1 n2 net => getMarketOverview apiKey f st n1 n2 net
  | .screen q f n1 n2 net => screenStocks apiKey q f st n1 n2 net
  | .ipoListOp f n1 n2 net => fetchIPOList apiKey f st n1 n2 net
  | .analysisOp t net => generateAnalysis apiKey t st net
  | .ipoReportOp nm net => generateIPOReport apiKey nm st net

/-- Runs a sequence of calls, threading the module state. -/
def runOps (apiKey : String) (ops : List Op) (st : CoreState) : CoreState :=
  match ops with
  | [] => st
  | o :: rest => runOps apiKey rest (runOp apiKey o st).state

/-- The 26 uppercase / lowercase ASCII letter pairs. -/
def ucPairs : List (Char × Char) :=
  [('A','a'), ('B','b'), ('C','c'), ('D','d'), ('E','e'), ('F','f'), ('G','g'),
   ('H','h'), ('I','i'), ('J','j'), ('K','k'), ('L','l'), ('M','m'), ('N','n'),
   ('O','o'), ('P','p'), ('Q','q'), ('R','r'), ('S','s'), ('T','t'), ('U','u'),
   ('V','v'), ('W','w'), ('X','x'), ('Y','y'), ('Z','z')]

theorem charLower_cases (c : Char) : charLower c = c ∨ (c, charLower c) ∈ ucPairs := by
  unfold charLower
  repeat' split
  all_goals simp_all [ucPairs]

theorem charLower_idem (c : Char) : charLower (charLower c) = charLower c := by
  rcases charLower_cases c with h | h
  · rw [h, h]
  · have hall : ∀ p ∈ ucPairs, charLower p.2 = p.2 := by decide
    exact hall _ h

theorem charLower_ws (c : Char) : (charLower c).isWhitespace = c.isWhitespace := by
  rcases charLower_cases c with h | h
  · rw [h]
  · have hall : ∀ p ∈ ucPairs, (p.2).isWhitespace = (p.1).isWhitespace := by decide
    exact hall _ h

/-- A character list whose head (if any) fails the predicate. -/
def headFails (p : Char → Bool) : List Char → Prop
  | [] => True
  | c :: _ => p c = false

theorem headFails_dropWhile (p : Char → Bool) (l : List Char) :
    headFails p (l.dropWhile p) := by
  induction l with
  | nil => trivial
  | cons a l ih =>
    by_cases h : p a
    · simpa [List.dropWhile_cons, h] using ih
    · simp_all [List.dropWhile_cons, headFails]

theorem dropWhile_of_headFails (p : Char → Bool) (l : List Char) (h : headFails p l) :
    l.dropWhile p = l := by
  cases l with
  | nil => rfl
  | cons a l => simp_all [List.dropWhile_cons, headFails]

theorem exists_dropWhile_eq_drop (p : Char → Bool) (l : List Char) :
    ∃ k, l.dropWhile p = l.drop k := by
  induction l with
  | nil => exact ⟨0, rfl⟩
  | cons a l ih =>
    by_cases h : p a
    · obtain ⟨k, hk⟩ := ih
      exact ⟨k + 1, by simp [List.dropWhile_cons, h, hk]⟩
    · exact ⟨0, by simp [List.dropWhile_cons, h]⟩

theorem headFails_take (p : Char → Bool) (l : List Char) (m : Nat) (h : headFails p l) :
    headFails p (l.take m) := by
  cases l with
  | nil => simp [headFails]
  | cons a l => cases m with
    | zero => trivial
    | succ m => simpa [headFails] using h

theorem listTrim_headFails (l : List Char) : headFails ws (listTrim l) := by
  unfold listTrim
  obtain ⟨k, hk⟩ := exists_dropWhile_eq_drop ws (l.dropWhile ws).reverse
  rw [hk, List.reverse_drop, List.reverse_reverse]
  exact headFails_take ws _ _ (headFails_dropWhile ws l)

theorem listTrim_idem (l : List Char) : listTrim (listTrim l) = listTrim l := by
  have h1 : (listTrim l).dropWhile ws = listTrim l :=
    dropWhile_of_headFails ws _ (listTrim_headFails l)
  show (((listTrim l).dropWhile ws).reverse.dropWhile ws).reverse = listTrim l
  rw [h1]
  have h2 : (listTrim l).reverse = (l.dropWhile ws).reverse.dropWhile ws := by
    unfold listTrim
    rw [List.reverse_reverse]
  rw [h2, dropWhile_of_headFails ws _ (headFails_dropWhile ws _), ← h2,
    List.reverse_reverse]

theorem dropWhile_map_charLower (l : List Char) :
    (l.map charLower).dropWhile ws = (l.dropWhile ws).map charLower := by
  induction l with
  | nil => rfl
  | cons a l ih =>
    by_cases h : ws a
    · have h2 : ws (charLower a) = true := by
        show (charLower a).isWhitespace = true
        rw [charLower_ws]; exact h
      simp [List.dropWhile_cons, h, h2, ih]
    · have h2 : ws (charLower a) = false := by
        show (charLower a).isWhitespace = false
        rw [charLower_ws]; simpa using h
      simp [List.dropWhile_cons, h, h2]

theorem listTrim_map_charLower (l : List Char) :
    listTrim (l.map charLower) = (listTrim l).map charLower := by
  unfold listTrim
  rw [dropWhile_map_charLower, ← List.map_reverse, dropWhile_map_charLower,
    ← List.map_reverse]

theorem map_charLower_idem (l : List Char) :
    (l.map charLower).map charLower = l.map charLower := by
  rw [List.map_map]
  exact List.map_congr_left (fun c _ => charLower_idem c)

/-- C9: screener cache-key normalization (`getCacheKey`: trim then
lowercase) is idempotent — normalizing twice equals normalizing once — and
the queries "AAPL", " aapl " and "Aapl" all normalize to the same key, so
`screenStocks` lookups for them address the same `screenerCache` entry. -/
theorem claim9_cache_key_idempotent :
    (∀ q : String, getCacheKey (getCacheKey q) = getCacheKey q) ∧
    getCacheKey ("AAPL") = getCacheKey (" aapl ") ∧
    getCacheKey ("Aapl") = getCacheKey (" aapl ") := by
  refine ⟨fun q => ?_, rfl, rfl⟩
  have hstep : listTrim ((getCacheKey q).data) = (listTrim q.data).map charLower := by
    show listTrim ((listTrim q.data).map charLower) = (listTrim q.data).map charLower
    rw [listTrim_map_charLower, listTrim_idem]
  calc getCacheKey (getCacheKey q)
      = (⟨(listTrim ((getCacheKey q).data)).map charLower⟩ : String) := rfl
    _ = (⟨((listTrim q.data).map charLower).map charLower⟩ : String) := by rw [hstep]
    _ = (⟨(listTrim q.data).map charLower⟩ : String) := by rw [map_charLower_idem]
    _ = getCacheKey q := rfl

/-- C1: for every operation failing on its first two invocations with
quota-classified (429) errors and succeeding on the third,
`retryOperation` with `maxRetries = 3` and the default
`initialDelay = 2000` returns the third invocation's success value after
exactly 3 invocations; the wait before the third invocation (10000 ms) is
twice the wait before the second (5000 ms), and the rate-limited base
delay (5000 ms) is strictly longer than the generic server-failure base
delay (2000 ms). -/
theorem claim1_retry_quota_backoff {α : Type}
    (op : Nat → Except JSError α) (e0 e1 : JSError) (v : α)
    (h0 : op 0 = .error e0) (hq0 : isQuotaC (unwrapRetry e0) = true)
    (h1 : op 1 = .error e1) (hq1 : isQuotaC (unwrapRetry e1) = true)
    (h2 : op 2 = .ok v) :
    (retryOperation op 3 2000).result = .ok v ∧
    (retryOperation op 3 2000).calls = 3 ∧
    (retryOperation op 3 2000).waits = [5000, 10000] ∧
    2 * 5000 ≤ 10000 ∧ 2000 < 5000 := by
  have key : retryOperation op 3 2000 = ⟨.ok v, 3, [5000, 10000]⟩ := by
    show retryGo op 3 2000 3 0 [] = _
    simp only [retryGo, h0, h1, h2, hq0, hq1]
    norm_num
  rw [key]
  refine ⟨rfl, rfl, rfl, by norm_num, by norm_num⟩

/-- A bare 429 transport error. -/
def err429 : JSError := { status := some 429 }

/-- Operation failing twice with a 429 error, then succeeding. -/
def c1op : Nat → Except JSError (Option String) :=
  fun i => if i < 2 then .error err429 else .ok (some ("hi"))

theorem claim1_witness :
    c1op 0 = .error err429 ∧ isQuotaC (unwrapRetry err429) = true ∧
    c1op 2 = .ok (some ("hi")) ∧
    (retryOperation c1op 3 2000).result = .ok (some ("hi")) ∧
    (retryOperation c1op 3 2000).calls = 3 ∧
    (retryOperation c1op 3 2000).waits = [5000, 10000] := by
  have h := claim1_retry_quota_backoff c1op err429 err429 (some ("hi")) rfl rfl rfl rfl rfl
  exact ⟨rfl, rfl, rfl, h.1, h.2.1, h.2.2.1⟩

/-- A 400 error whose message embeds a serialized error body; the retry
loop patches `message` (and `status`) from the embedded body before
rethrowing. -/
def e400j : JSError :=
  { status := some 400,
    message := some ("Request failed: \x7b\"error\":\x7b\"code\":400,\"message\":\"Bad ticker\"\x7d\x7d") }

/-- Operation that always fails with `e400j`. -/
def c2op : Nat → Except JSError (Option String) := fun _ => .error e400j

/-- C2 fails on the code as stated: this non-retryable (400-classified)
failure is propagated after exactly one invocation, but with its `message`
field rewritten from the embedded serialized error body — not "unchanged,
same message field as thrown by the operation". -/
theorem claim2_counterexample :
    (retryOperation c2op 3 2000).calls = 1 ∧
    (retryOperation c2op 3 2000).result =
      .error { e400j with message := some ("Bad ticker") } ∧
    some ("Bad ticker") ≠ e400j.message := by
  exact ⟨rfl, rfl, by decide⟩

/-- C2 (amended): for every operation whose first invocation fails with a
failure that the retry classifier deems neither quota- nor
server-retryable, `retryOperation` invokes the operation exactly once and
propagates that same failure object; its `status` and `message` fields may
first have been rewritten from an embedded serialized error body, and when
the message embeds no such body the failure is propagated fully
unchanged. -/
theorem claim2_amended_single_invocation {α : Type}
    (op : Nat → Except JSError α) (e : JSError)
    (h0 : op 0 = .error e)
    (hq : isQuotaC (unwrapRetry e) = false) (hs : isServerC (unwrapRetry e) = false) :
    (retryOperation op 3 2000).calls = 1 ∧
    (retryOperation op 3 2000).result = .error (unwrapRetry e).patched ∧
    (e.message = none → (unwrapRetry e).patched = e) ∧
    (∀ m, e.message = some m → jsRegexBraceMatch m = none → (unwrapRetry e).patched = e) := by
  have key : retryOperation op 3 2000 = ⟨.error (unwrapRetry e).patched, 1, []⟩ := by
    show retryGo op 3 2000 3 0 [] = _
    simp only [retryGo, h0, hq, hs]
    norm_num
  refine ⟨by rw [key], by rw [key], ?_, ?_⟩
  · intro hm
    simp [unwrapRetry, hm]
  · intro m hm hb
    simp [unwrapRetry, hm, hb]

/-- Operation that always fails with a bare 400 error. -/
def op400 : Nat → Except JSError (Option String) := fun _ => .error { status := some 400 }

theorem claim2_witness :
    op400 0 = .error { status := some 400 } ∧
    isQuotaC (unwrapRetry { status := some 400 }) = false ∧
    isServerC (unwrapRetry { status := some 400 }) = false ∧
    (retryOperation op400 3 2000).calls = 1 ∧
    (retryOperation op400 3 2000).result = .error { status := some 400 } := by
  have h := claim2_amended_single_invocation op400 { status := some 400 } rfl rfl rfl
  refine ⟨rfl, rfl, rfl, h.1, ?_⟩
  have h3 := h.2.2.1 rfl
  rw [h.2.1, h3]

theorem patchHandle_preserves (e : JSError) :
    (patchHandle e).title = e.title ∧ (patchHandle e).details = e.details ∧
    (patchHandle e).isRetryable = e.isRetryable := by
  unfold patchHandle
  repeat' split
  all_goals exact ⟨rfl, rfl, rfl⟩

theorem patchHandle_message_cases (e : JSError) :
    (patchHandle e).message = e.message ∨
      ∃ s, ¬(s = "") ∧ (patchHandle e).message = some s := by
  unfold patchHandle
  cases hm : e.message with
  | none => exact Or.inl hm
  | some m =>
    dsimp only
    cases hb : jsRegexBraceMatch m with
    | none => exact Or.inl hm
    | some blob =>
      dsimp only
      cases hj : jsonParse blob with
      | none => exact Or.inl hm
      | some parsed =>
        dsimp only
        by_cases ht : (parsed.getField ("error")).truthy = true
        · rw [if_pos ht]
          dsimp only
          cases hf : (parsed.getField ("error")).getField ("message") with
          | jstr s =>
            by_cases hs : s = ""
            · simp [hs]
            · exact Or.inr ⟨s, hs, by dsimp only; rw [if_neg hs]⟩
          | jundefined => exact Or.inl rfl
          | jnull => exact Or.inl rfl
          | jbool b => exact Or.inl rfl
          | jnum n => exact Or.inl rfl
          | jarr a => exact Or.inl rfl
          | jobj o => exact Or.inl rfl
        · rw [if_neg ht]
          exact Or.inl hm

theorem patchHandle_message_truthy (e : JSError)
    (h : optStrTruthy e.message = true) :
    optStrTruthy (patchHandle e).message = true := by
  rcases patchHandle_message_cases e with hc | ⟨s, hs, hc⟩
  · rw [hc]; exact h
  · rw [hc]; simpa [optStrTruthy] using hs

theorem descriptorShaped_patchHandle (e : JSError) (h : descriptorShaped e = true) :
    descriptorShaped (patchHandle e) = true := by
  unfold descriptorShaped at h ⊢
  rw [Bool.and_eq_true, Bool.and_eq_true] at h ⊢
  obtain ⟨⟨h1, h2⟩, h3⟩ := h
  refine ⟨⟨?_, patchHandle_message_truthy e h2⟩, ?_⟩
  · rw [(patchHandle_preserves e).1]; exact h1
  · rw [(patchHandle_preserves e).2.2]; exact h3

theorem handleApiError_passthrough (e : JSError) (h : descriptorShaped e = true) :
    handleApiError e = patchHandle e := by
  unfold handleApiError
  rw [descriptorShaped_patchHandle e h]
  simp

theorem patchHandle_no_embed_none (e : JSError) (hm : e.message = none) :
    patchHandle e = e := by
  unfold patchHandle
  rw [hm]

theorem patchHandle_no_embed_some (e : JSError) (m : String) (hm : e.message = some m)
    (hb : jsRegexBraceMatch m = none) : patchHandle e = e := by
  unfold patchHandle
  rw [hm]
  dsimp only
  rw [hb]

theorem descriptorShaped_classifyError (e : JSError) :
    descriptorShaped (classifyError e) = true := by
  simp only [classifyError]
  repeat' split
  all_goals rfl

theorem descriptorShaped_handleApiError (e : JSError) :
    descriptorShaped (handleApiError e) = true := by
  unfold handleApiError
  split
  · assumption
  · exact descriptorShaped_classifyError (patchHandle e)

/-- An ErrorDescriptor-shaped failure whose message embeds a serialized
error body. -/
def cEmb : JSError :=
  { title := some ("Custom"), isRetryable := some false,
    message := some ("quota hit \x7b\"error\":\x7b\"message\":\"inner\"\x7d\x7d") }

/-- C6 fails on the code as stated: `handleApiError` applies its
embedded-error unwrap before the pass-through check, so this
descriptor-shaped failure is rethrown with its `message` rewritten to the
embedded body's message — not unchanged. -/
theorem claim6_counterexample :
    descriptorShaped cEmb = true ∧
    (handleApiError cEmb).message = some ("inner") ∧
    (handleApiError cEmb).message ≠ cEmb.message := by
  exact ⟨rfl, rfl, by decide⟩

/-- C6 (amended): a failure already carrying the ErrorDescriptor shape
(truthy title and message, defined retry flag) is rethrown by
`handleApiError` without any reclassification from the status/keyword
table: the result is the same object after the embedded-error unwrap,
with title, details and retry flag always preserved, and fully unchanged
whenever its message embeds no serialized error body. -/
theorem claim6_amended_passthrough (e : JSError) (h : descriptorShaped e = true) :
    handleApiError e = patchHandle e ∧
    (patchHandle e).title = e.title ∧
    (patchHandle e).details = e.details ∧
    (patchHandle e).isRetryable = e.isRetryable ∧
    (e.message = none → handleApiError e = e) ∧
    (∀ m, e.message = some m → jsRegexBraceMatch m = none → handleApiError e = e) := by
  have hp := handleApiError_passthrough e h
  refine ⟨hp, (patchHandle_preserves e).1, (patchHandle_preserves e).2.1,
    (patchHandle_preserves e).2.2, ?_, ?_⟩
  · intro hm
    rw [hp, patchHandle_no_embed_none e hm]
  · intro m hm hb
    rw [hp, patchHandle_no_embed_some e m hm hb]

/-- An ErrorDescriptor-shaped failure with no embedded error body. -/
def cPlain : JSError :=
  { title := some ("Custom"), message := some ("all good"),
    details := some ("d"), isRetryable := some false }

theorem claim6_witness :
    descriptorShaped cPlain = true ∧ handleApiError cPlain = cPlain := by
  have h := claim6_amended_passthrough cPlain rfl
  exact ⟨rfl, h.2.2.2.2.2 ("all good") rfl rfl⟩

theorem errShape_generateAnalysis (apiKey ticker : String) (st : CoreState)
    (net : Nat → Except JSError (Option String)) (e : JSError)
    (h : (generateAnalysis apiKey ticker st net).result = .error e) :
    descriptorShaped e = true := by
  simp only [generateAnalysis] at h
  repeat' split at h
  all_goals dsimp only at h
  all_goals simp only [Except.ok.injEq, Except.error.injEq, reduceCtorEq] at h
  all_goals subst h
  all_goals first | exact descriptorShaped_handleApiError _ | rfl

theorem errShape_getMarketOverview (apiKey : String) (force : Bool) (st : CoreState)
    (now1 now2 : Int) (net : Nat → Except JSError (Option String)) (e : JSError)
    (h : (getMarketOverview apiKey force st now1 now2 net).result = .error e) :
    descriptorShaped e = true := by
  simp only [getMarketOverview, marketFetch] at h
  repeat' split at h
  all_goals dsimp only at h
  all_goals simp only [Except.ok.injEq, Except.error.injEq, reduceCtorEq] at h
  all_goals subst h
  all_goals first | exact descriptorShaped_handleApiError _ | rfl

theorem errShape_screenStocks (apiKey query : String) (force : Bool) (st : CoreState)
    (now1 now2 : Int) (net : Nat → Except JSError (Option String)) (e : JSError)
    (h : (screenStocks apiKey query force st now1 now2 net).result = .error e) :
    descriptorShaped e = true := by
  simp only [screenStocks, screenerFetch] at h
  repeat' split at h
  all_goals dsimp only at h
  all_goals simp only [Except.ok.injEq, Except.error.injEq, reduceCtorEq] at h
  all_goals subst h
  all_goals first | exact descriptorShaped_handleApiError _ | rfl

theorem errShape_fetchIPOList (apiKey : String) (force : Bool) (st : CoreState)
    (now1 now2 : Int) (net : Nat → Except JSError (Option String)) (e : JSError)
    (h : (fetchIPOList apiKey force st now1 now2 net).result = .error e) :
    descriptorShaped e = true := by
  simp only [fetchIPOList, ipoListFetch] at h
  repeat' split at h
  all_goals dsimp only at h
  all_goals simp only [Except.ok.injEq, Except.error.injEq, reduceCtorEq] at h
  all_goals subst h
  all_goals first | exact descriptorShaped_handleApiError _ | rfl

theorem errShape_generateIPOReport (apiKey nm : String) (st : CoreState)
    (net : Nat → Except JSError (Option String)) (e : JSError)
    (h : (generateIPOReport apiKey nm st net).result = .error e) :
    descriptorShaped e = true := by
  simp only [generateIPOReport] at h
  repeat' split at h
  all_goals dsimp only at h
  all_goals simp only [Except.ok.injEq, Except.error.injEq, reduceCtorEq] at h
  all_goals subst h
  all_goals first | exact descriptorShaped_handleApiError _ | rfl

theorem chatLite_resolves (apiKey : String) (net : Nat → Except JSError (Option String))
    (hk : ¬apiKey = "") :
    ∃ s, (generateChatResponseLite apiKey net).1 = .ok s := by
  unfold generateChatResponseLite
  rw [if_neg hk]
  dsimp only
  cases (retryOperation net 3 2000).result with
  | ok t => exact ⟨_, rfl⟩
  | error e => exact ⟨_, rfl⟩

theorem chatDetailed_resolves (apiKey : String) (net : Nat → Except JSError (Option String))
    (hk : ¬apiKey = "") :
    ∃ s, (generateChatResponseDetailed apiKey net).1 = .ok s := by
  unfold generateChatResponseDetailed
  rw [if_neg hk]
  dsimp only
  cases (retryOperation net 3 2000).result with
  | ok t => exact ⟨_, rfl⟩
  | error e => exact ⟨_, rfl⟩

/-- A network behaviour that always succeeds with the text "x". -/
def netX : Nat → Except JSError (Option String) := fun _ => .ok (some ("x"))

/-- C3 fails on the code as stated: with the API key missing,
`generateChatResponseLite` rejects with `new Error("API Key Missing")` — a
raw exception with no title and no retry flag, not an ErrorDescriptor. -/
theorem claim3_counterexample :
    (generateChatResponseLite ("") netX).1 = .error (plainError ("API Key Missing")) ∧
    descriptorShaped (plainError ("API Key Missing")) = false := by
  exact ⟨rfl, rfl⟩

/-- C3 (amended): every error that the five report functions
(`generateAnalysis`, `getMarketOverview`, `screenStocks`, `fetchIPOList`,
`generateIPOReport`) surface is an ErrorDescriptor (truthy title and
message, explicit boolean retry flag); the two chat functions never reject
when the API key is present (they resolve with a fallback string instead),
and their only rejection — the missing-key raw `Error` — is not an
ErrorDescriptor. -/
theorem claim3_amended_descriptor_boundary :
    (∀ apiKey ticker st net e,
      (generateAnalysis apiKey ticker st net).result = .error e →
        descriptorShaped e = true) ∧
    (∀ apiKey force st now1 now2 net e,
      (getMarketOverview apiKey force st now1 now2 net).result = .error e →
        descriptorShaped e = true) ∧
    (∀ apiKey query force st now1 now2 net e,
      (screenStocks apiKey query force st now1 now2 net).result = .error e →
        descriptorShaped e = true) ∧
    (∀ apiKey force st now1 now2 net e,
      (fetchIPOList apiKey force st now1 now2 net).result = .error e →
        descriptorShaped e = true) ∧
    (∀ apiKey nm st net e,
      (generateIPOReport apiKey nm st net).result = .error e →
        descriptorShaped e = true) ∧
    (∀ apiKey net, ¬apiKey = "" → ∃ s, (generateChatResponseLite apiKey net).1 = .ok s) ∧
    (∀ apiKey net, ¬apiKey = "" → ∃ s, (generateChatResponseDetailed apiKey net).1 = .ok s) := by
  exact ⟨fun a t st n e h => errShape_generateAnalysis a t st n e h,
    fun a f st n1 n2 n e h => errShape_getMarketOverview a f st n1 n2 n e h,
    fun a q f st n1 n2 n e h => errShape_screenStocks a q f st n1 n2 n e h,
    fun a f st n1 n2 n e h => errShape_fetchIPOList a f st n1 n2 n e h,
    fun a nm st n e h => errShape_generateIPOReport a nm st n e h,
    fun a n hk => chatLite_resolves a n hk,
    fun a n hk => chatDetailed_resolves a n hk⟩

/-- A network behaviour that always fails with a bare 503 error. -/
def net503 : Nat → Except JSError (Option String) :=
  fun _ => .error { status := some 503, message := some ("model overloaded") }

theorem claim3_witness :
    ((generateAnalysis ("k") ("T") (initialState none none) net503).result =
      .error (classifyError { status := some 503, message := some ("model overloaded") })) ∧
    descriptorShaped
      (classifyError { status := some 503, message := some ("model overloaded") }) = true ∧
    (generateChatResponseLite ("k") net503).1 = .ok ("I\x27m thinking...") := by
  refine ⟨rfl, ?_, rfl⟩
  have h := claim3_amended_descriptor_boundary
  exact h.1 ("k") ("T") (initialState none none) net503 _ rfl

theorem refusalError_message_ne (ticker : String) :
    ¬("Unable to generate a report for \x27" ++ ticker ++
      "\x27. The ticker symbol might be incorrect, delisted, or not supported by the available data sources.") = "" := by
  intro heq
  have h := congrArg String.length heq
  rw [String.length_append, String.length_append] at h
  have h1 : ("Unable to generate a report for \x27" : String).length = 33 := rfl
  have h2 : ("" : String).length = 0 := rfl
  omega

theorem refusalError_shaped (ticker text : String) :
    descriptorShaped (refusalError ticker text) = true := by
  unfold descriptorShaped refusalError optStrTruthy
  dsimp only
  have hne := refusalError_message_ne ticker
  simp [hne]

/-- C4: whenever the model text, after fence stripping and trimming, is
shorter than 500 characters and contains a refusal phrase
case-insensitively, `generateAnalysis` fails with the dedicated
entity-not-found descriptor — non-retryable, carrying the stripped text as
`details` — and never with a parse-error classification (the refusal check
runs before any brace extraction or JSON parse). -/
theorem claim4_refusal_before_parse
    (apiKey ticker : String) (st : CoreState)
    (net : Nat → Except JSError (Option String)) (t0 : Option String)
    (hk : ¬apiKey = "")
    (hr : (retryOperation net 3 2000).result = .ok t0)
    (href : isRefusalText (stripFences (jsOrStr t0 (""))) = true) :
    ∃ e, (generateAnalysis apiKey ticker st net).result = .error e ∧
      e.title = some ("Ticker Not Found") ∧
      e.isRetryable = some false ∧
      e.details = some (stripFences (jsOrStr t0 (""))) ∧
      ¬e.title = some ("Data Parsing Error") := by
  have hshaped := refusalError_shaped ticker (stripFences (jsOrStr t0 ("")))
  have hpass := handleApiError_passthrough _ hshaped
  have hfields := patchHandle_preserves (refusalError ticker (stripFences (jsOrStr t0 (""))))
  refine ⟨handleApiError (refusalError ticker (stripFences (jsOrStr t0 ("")))),
    ?_, ?_, ?_, ?_, ?_⟩
  · simp only [generateAnalysis]
    rw [if_neg hk, hr]
    dsimp only
    rw [if_pos href]
  · rw [hpass, hfields.1]; rfl
  · rw [hpass, hfields.2.2]; rfl
  · rw [hpass, hfields.2.1]; rfl
  · rw [hpass, hfields.1]
    simp [refusalError]

/-- A network behaviour answering with a short refusal text. -/
def netRefusal : Nat → Except JSError (Option String) :=
  fun _ => .ok (some ("no data available for XYZ"))

theorem claim4_witness :
    (¬("k" : String) = "") ∧
    (retryOperation netRefusal 3 2000).result = .ok (some ("no data available for XYZ")) ∧
    isRefusalText (stripFences (jsOrStr (some ("no data available for XYZ")) (""))) = true ∧
    (∃ e, (generateAnalysis ("k") ("XYZ") (initialState none none) netRefusal).result =
        .error e ∧
      e.title = some ("Ticker Not Found") ∧ e.isRetryable = some false ∧
      e.details = some (stripFences (jsOrStr (some ("no data available for XYZ")) (""))) ∧
      ¬e.title = some ("Data Parsing Error")) := by
  refine ⟨by decide, rfl, rfl, ?_⟩
  exact claim4_refusal_before_parse ("k") ("XYZ") (initialState none none) netRefusal
    (some ("no data available for XYZ")) (by decide) rfl rfl

/-- A network behaviour answering with the text "\x7d1\x7b" (a last
closing brace before the first opening brace). -/
def netBraceSwap : Nat → Except JSError (Option String) :=
  fun _ => .ok (some ("\x7d1\x7b"))

/-- C5 fails on the code as stated: on the text "\x7d1\x7b" the first
opening brace (index 2) lies after the last closing brace (index 0), the
claim's "substring from the first opening to the last closing brace" is
empty and unparseable, so the claim demands a parse-error failure — but
JavaScript `substring` swaps its arguments, the code parses the text "1"
strictly between the braces, and extraction succeeds with the number 1. -/
theorem claim5_counterexample :
    (generateAnalysis ("k") ("T") (initialState none none) netBraceSwap).result =
      .ok (.jnum 1) ∧
    firstIdxOf ("\x7d1\x7b") '{' = some 2 ∧
    lastIdxOf ("\x7d1\x7b") '}' = some 0 ∧
    jsonParse ("") = none := by
  exact ⟨rfl, rfl, rfl, rfl⟩

set_option maxRecDepth 8192 in
/-- C5 (amended): for every model text whose stripped form passes the
refusal guard, when the first opening brace occurs no later than the last
closing brace, extraction JSON-parses exactly that inclusive substring,
returning the parsed value on success and failing with a parse-error
classification ("Data Parsing Error", retryable) when the substring does
not parse; when either brace is absent extraction also fails with a
parse-error classification.  (When the last closing brace precedes the
first opening brace, JavaScript `substring` swaps the boundaries and the
text strictly between them is parsed instead — see the counterexample.) -/
theorem claim5_amended_extraction
    (apiKey ticker : String) (st : CoreState)
    (net : Nat → Except JSError (Option String)) (t0 : Option String)
    (hk : ¬apiKey = "")
    (hr : (retryOperation net 3 2000).result = .ok t0)
    (hnr : isRefusalText (stripFences (jsOrStr t0 (""))) = false) :
    (∀ fb lb, firstIdxOf (stripFences (jsOrStr t0 (""))) '{' = some fb →
        lastIdxOf (stripFences (jsOrStr t0 (""))) '}' = some lb → fb ≤ lb →
        ((∀ v, jsonParse (jsSubstring (stripFences (jsOrStr t0 (""))) fb (lb + 1)) = some v →
            (generateAnalysis apiKey ticker st net).result = .ok v) ∧
         (jsonParse (jsSubstring (stripFences (jsOrStr t0 (""))) fb (lb + 1)) = none →
            ∃ e, (generateAnalysis apiKey ticker st net).result = .error e ∧
              e.title = some ("Data Parsing Error") ∧ e.isRetryable = some true))) ∧
    ((firstIdxOf (stripFences (jsOrStr t0 (""))) '{' = none ∨
      lastIdxOf (stripFences (jsOrStr t0 (""))) '}' = none) →
      ∃ e, (generateAnalysis apiKey ticker st net).result = .error e ∧
        e.title = some ("Data Parsing Error") ∧ e.isRetryable = some true) := by
  have hbase : (generateAnalysis apiKey ticker st net) =
      (match firstIdxOf (stripFences (jsOrStr t0 (""))) '{',
             lastIdxOf (stripFences (jsOrStr t0 (""))) '}' with
       | some fb, some lb =>
         match jsonParse (jsSubstring (stripFences (jsOrStr t0 (""))) fb (lb + 1)) with
         | some v => ⟨.ok v, st, (retryOperation net 3 2000).calls⟩
         | none => ⟨.error (handleApiError parseFailureError), st,
             (retryOperation net 3 2000).calls⟩
       | _, _ =>
         ⟨.error (handleApiError (plainError
           ("Failed to parse analysis: Invalid JSON structure received."))), st,
          (retryOperation net 3 2000).calls⟩) := by
    simp only [generateAnalysis]
    rw [if_neg hk, hr]
    dsimp only
    rw [if_neg (by rw [hnr]; exact Bool.false_ne_true)]
  constructor
  · intro fb lb hfb hlb _
    constructor
    · intro v hp
      rw [hbase, hfb, hlb]
      dsimp only
      rw [hp]
    · intro hp
      refine ⟨handleApiError parseFailureError, ?_, rfl, rfl⟩
      rw [hbase, hfb, hlb]
      dsimp only
      rw [hp]
  · intro hmiss
    refine ⟨handleApiError (plainError
      ("Failed to parse analysis: Invalid JSON structure received.")), ?_, rfl, rfl⟩
    rcases hmiss with hfb | hlb
    · rw [hbase, hfb]
    · rw [hbase, hlb]
      cases firstIdxOf (stripFences (jsOrStr t0 (""))) '{' with
      | none => rfl
      | some fb => rfl

/-- A network behaviour answering with a fenced JSON payload wrapped in
prose. -/
def netFenced : Nat → Except JSError (Option String) :=
  fun _ => .ok (some ("Sure! ```json\n\x7b\"a\":1\x7d\n```"))

set_option maxRecDepth 8192 in
theorem claim5_witness :
    (¬("k" : String) = "") ∧
    (retryOperation netFenced 3 2000).result =
      .ok (some ("Sure! ```json\n\x7b\"a\":1\x7d\n```")) ∧
    isRefusalText (stripFences (jsOrStr (some ("Sure! ```json\n\x7b\"a\":1\x7d\n```")) (""))) =
      false ∧
    stripFences ("Sure! ```json\n\x7b\"a\":1\x7d\n```") = "Sure! \n\x7b\"a\":1\x7d" ∧
    (generateAnalysis ("k") ("T") (initialState none none) netFenced).result =
      .ok (.jobj [("a", .jnum 1)]) := by
  refine ⟨by decide, rfl, rfl, rfl, ?_⟩
  exact ((claim5_amended_extraction ("k") ("T") (initialState none none) netFenced
    (some ("Sure! ```json\n\x7b\"a\":1\x7d\n```")) (by decide) rfl rfl).1
    7 13 rfl rfl (by norm_num)).1 (.jobj [("a", .jnum 1)]) rfl

theorem retryGo_calls_ge {α : Type} (op : Nat → Except JSError α) (m d : Nat) :
    ∀ fuel i waits, i ≤ (retryGo op m d fuel i waits).calls := by
  intro fuel
  induction fuel with
  | zero => intro i waits; exact Nat.le_refl i
  | succ fuel ih =>
    intro i waits
    unfold retryGo
    cases op i with
    | ok v => exact Nat.le_succ i
    | error e =>
      dsimp only
      split
      · exact Nat.le_trans (Nat.le_succ i) (ih (i + 1) _)
      · exact Nat.le_succ i

theorem retryOperation_calls_ge_one {α : Type} (op : Nat → Except JSError α) (d : Nat) :
    1 ≤ (retryOperation op 3 d).calls := by
  show 1 ≤ (retryGo op 3 d 3 0 []).calls
  unfold retryGo
  cases op 0 with
  | ok v => exact Nat.le_refl 1
  | error e =>
    dsimp only
    split
    · exact Nat.le_trans (Nat.le_refl 1) (retryGo_calls_ge op 3 d 2 1 _)
    · exact Nat.le_refl 1

theorem lookup_setAssoc (l : List (String × (JVal × Int))) (k : String) (v : JVal × Int) :
    List.lookup k (setAssoc l k v) = some v := by
  induction l with
  | nil => simp [setAssoc, List.lookup]
  | cons a l ih =>
    by_cases h : a.1 = k
    · simp [setAssoc, h, List.lookup]
    · have hne : (k == a.1) = false := by
        simp only [beq_eq_false_iff_ne, ne_eq]
        intro he
        exact h he.symm
      simp [setAssoc, h, List.lookup, hne, ih]

theorem generateAnalysis_state (apiKey ticker : String) (st : CoreState)
    (net : Nat → Except JSError (Option String)) :
    (generateAnalysis apiKey ticker st net).state = st := by
  simp only [generateAnalysis]
  repeat' split
  all_goals rfl

theorem generateAnalysis_calls (apiKey ticker : String) (st : CoreState)
    (net : Nat → Except JSError (Option String)) (hk : ¬apiKey = "") :
    (generateAnalysis apiKey ticker st net).calls = (retryOperation net 3 2000).calls := by
  simp only [generateAnalysis]
  rw [if_neg hk]
  repeat' split
  all_goals rfl

theorem generateAnalysis_result_frame (apiKey ticker : String) (st st2 : CoreState)
    (net : Nat → Except JSError (Option String)) :
    (generateAnalysis apiKey ticker st net).result =
      (generateAnalysis apiKey ticker st2 net).result := by
  simp only [generateAnalysis]
  repeat' split
  all_goals rfl

theorem generateIPOReport_state (apiKey nm : String) (st : CoreState)
    (net : Nat → Except JSError (Option String)) :
    (generateIPOReport apiKey nm st net).state = st := by
  simp only [generateIPOReport]
  repeat' split
  all_goals rfl

theorem generateIPOReport_calls (apiKey nm : String) (st : CoreState)
    (net : Nat → Except JSError (Option String)) (hk : ¬apiKey = "") :
    (generateIPOReport apiKey nm st net).calls = (retryOperation net 3 2000).calls := by
  simp only [generateIPOReport]
  rw [if_neg hk]
  repeat' split
  all_goals rfl

theorem generateIPOReport_result_frame (apiKey nm : String) (st st2 : CoreState)
    (net : Nat → Except JSError (Option String)) :
    (generateIPOReport apiKey nm st net).result =
      (generateIPOReport apiKey nm st2 net).result := by
  simp only [generateIPOReport]
  repeat' split
  all_goals rfl

/-- C8: `generateAnalysis` and `generateIPOReport` never read or write any
cache: the module state (all three caches, `lastScreenerQuery`, and both
persisted storage slots) is returned unchanged, the result is independent
of the module state (a second call with identical parameters cannot be
served from any cache), and with the key present every call performs the
model-invocation path (at least one operation invocation). -/
theorem claim8_no_cache_for_analysis_ipo
    (apiKey ticker nm : String) (st st2 : CoreState)
    (net : Nat → Except JSError (Option String))
    (hk : ¬apiKey = "") :
    (generateAnalysis apiKey ticker st net).state = st ∧
    (generateIPOReport apiKey nm st net).state = st ∧
    1 ≤ (generateAnalysis apiKey ticker st net).calls ∧
    1 ≤ (generateIPOReport apiKey nm st net).calls ∧
    (generateAnalysis apiKey ticker st net).result =
      (generateAnalysis apiKey ticker st2 net).result ∧
    (generateIPOReport apiKey nm st net).result =
      (generateIPOReport apiKey nm st2 net).result := by
  refine ⟨generateAnalysis_state apiKey ticker st net,
    generateIPOReport_state apiKey nm st net, ?_, ?_,
    generateAnalysis_result_frame apiKey ticker st st2 net,
    generateIPOReport_result_frame apiKey nm st st2 net⟩
  · rw [generateAnalysis_calls apiKey ticker st net hk]
    exact retryOperation_calls_ge_one net 2000
  · rw [generateIPOReport_calls apiKey nm st net hk]
    exact retryOperation_calls_ge_one net 2000

/-- A state with all three caches and both storage slots populated. -/
def stFull : CoreState :=
  { marketCache := some (.jstr ("m"), 10), screenerCache := [("q", (.jstr ("s"), 20))],
    lastScreenerQuery := some ("q"), ipoListCache := some (.jstr ("i"), 30),
    storageMarket := some (.jstr ("m"), 10), storageIpo := some (.jstr ("i"), 30) }

theorem claim8_witness :
    (¬("k" : String) = "") ∧
    (generateAnalysis ("k") ("T") stFull netX).state = stFull ∧
    (generateIPOReport ("k") ("N") stFull netX).state = stFull ∧
    1 ≤ (generateAnalysis ("k") ("T") stFull netX).calls ∧
    (generateAnalysis ("k") ("T") stFull netX).result =
      (generateAnalysis ("k") ("T") (initialState none none) netX).result := by
  have h := claim8_no_cache_for_analysis_ipo ("k") ("T") ("N") stFull
    (initialState none none) netX (by decide)
  exact ⟨by decide, h.1, h.2.1, h.2.2.1, h.2.2.2.2.1⟩

theorem marketFetch_cases (st : CoreState) (now2 : Int)
    (net : Nat → Except JSError (Option String)) :
    (∃ e, marketFetch st now2 net = ⟨.error e, st, (retryOperation net 3 2000).calls⟩) ∨
    (∃ v, marketFetch st now2 net =
      ⟨.ok v, { st with marketCache := some (v, now2), storageMarket := some (v, now2) },
       (retryOperation net 3 2000).calls⟩) := by
  simp only [marketFetch]
  repeat' split
  all_goals first | (left; exact ⟨_, rfl⟩) | (right; exact ⟨_, rfl⟩)

theorem screenerFetch_cases (q ck : String) (st : CoreState) (now2 : Int)
    (net : Nat → Except JSError (Option String)) :
    (∃ e, screenerFetch q ck st now2 net = ⟨.error e, st, (retryOperation net 3 2000).calls⟩) ∨
    (∃ v, screenerFetch q ck st now2 net =
      ⟨.ok v, { st with screenerCache := setAssoc st.screenerCache ck (v, now2),
                        lastScreenerQuery := some q },
       (retryOperation net 3 2000).calls⟩) := by
  simp only [screenerFetch]
  repeat' split
  all_goals first | (left; exact ⟨_, rfl⟩) | (right; exact ⟨_, rfl⟩)

theorem ipoListFetch_cases (st : CoreState) (now2 : Int)
    (net : Nat → Except JSError (Option String)) :
    (∃ e, ipoListFetch st now2 net = ⟨.error e, st, (retryOperation net 3 2000).calls⟩) ∨
    (∃ v, ipoListFetch st now2 net =
      ⟨.ok v, { st with ipoListCache := some (v, now2), storageIpo := some (v, now2) },
       (retryOperation net 3 2000).calls⟩) := by
  simp only [ipoListFetch]
  repeat' split
  all_goals first | (left; exact ⟨_, rfl⟩) | (right; exact ⟨_, rfl⟩)

theorem market_hit (apiKey : String) (st : CoreState) (now1 now2 : Int)
    (net : Nat → Except JSError (Option String)) (hk : ¬apiKey = "")
    (d : JVal) (ts : Int) (hc : st.marketCache = some (d, ts))
    (hfresh : now1 - ts < MARKET_CACHE_TTL) :
    getMarketOverview apiKey false st now1 now2 net = ⟨.ok d, st, 0⟩ := by
  simp only [getMarketOverview]
  rw [if_neg hk, hc]
  dsimp only
  rw [if_pos (by simp [hfresh])]

theorem market_stale (apiKey : String) (force : Bool) (st : CoreState) (now1 now2 : Int)
    (net : Nat → Except JSError (Option String)) (hk : ¬apiKey = "")
    (d : JVal) (ts : Int) (hc : st.marketCache = some (d, ts))
    (hstale : force = true ∨ MARKET_CACHE_TTL ≤ now1 - ts) :
    getMarketOverview apiKey force st now1 now2 net = marketFetch st now2 net := by
  simp only [getMarketOverview]
  rw [if_neg hk, hc]
  dsimp only
  rw [if_neg ?_]
  rcases hstale with hf | ht
  · simp [hf]
  · have hnl : ¬(now1 - ts < MARKET_CACHE_TTL) := not_lt.mpr ht
    simp [hnl]

theorem marketFetch_store (st : CoreState) (now2 : Int)
    (net : Nat → Except JSError (Option String)) (v : JVal)
    (h : (marketFetch st now2 net).result = .ok v) :
    (marketFetch st now2 net).state.marketCache = some (v, now2) := by
  rcases marketFetch_cases st now2 net with ⟨e, hc⟩ | ⟨v0, hc⟩
  · rw [hc] at h
    simp at h
  · rw [hc] at h
    simp only [Except.ok.injEq] at h
    subst h
    rw [hc]

theorem screener_hit (apiKey q : String) (st : CoreState) (now1 now2 : Int)
    (net : Nat → Except JSError (Option String)) (hk : ¬apiKey = "")
    (d : JVal) (ts : Int)
    (hc : List.lookup (getCacheKey q) st.screenerCache = some (d, ts))
    (hfresh : now1 - ts < SCREENER_CACHE_TTL) :
    screenStocks apiKey q false st now1 now2 net =
      ⟨.ok d, { st with lastScreenerQuery := some q }, 0⟩ := by
  simp only [screenStocks]
  rw [if_neg hk, hc]
  dsimp only
  rw [if_pos (by simp [hfresh])]

theorem screener_stale (apiKey q : String) (force : Bool) (st : CoreState) (now1 now2 : Int)
    (net : Nat → Except JSError (Option String)) (hk : ¬apiKey = "")
    (d : JVal) (ts : Int)
    (hc : List.lookup (getCacheKey q) st.screenerCache = some (d, ts))
    (hstale : force = true ∨ SCREENER_CACHE_TTL ≤ now1 - ts) :
    screenStocks apiKey q force st now1 now2 net =
      screenerFetch q (getCacheKey q) st now2 net := by
  simp only [screenStocks]
  rw [if_neg hk, hc]
  dsimp only
  rw [if_neg ?_]
  rcases hstale with hf | ht
  · simp [hf]
  · have hnl : ¬(now1 - ts < SCREENER_CACHE_TTL) := not_lt.mpr ht
    simp [hnl]

theorem screenerFetch_store (q ck : String) (st : CoreState) (now2 : Int)
    (net : Nat → Except JSError (Option String)) (v : JVal)
    (h : (screenerFetch q ck st now2 net).result = .ok v) :
    List.lookup ck (screenerFetch q ck st now2 net).state.screenerCache = some (v, now2) := by
  rcases screenerFetch_cases q ck st now2 net with ⟨e, hc⟩ | ⟨v0, hc⟩
  · rw [hc] at h
    simp at h
  · rw [hc] at h
    simp only [Except.ok.injEq] at h
    subst h
    rw [hc]
    exact lookup_setAssoc st.screenerCache ck (v0, now2)

theorem ipoList_hit (apiKey : String) (st : CoreState) (now1 now2 : Int)
    (net : Nat → Except JSError (Option String)) (hk : ¬apiKey = "")
    (d : JVal) (ts : Int) (hc : st.ipoListCache = some (d, ts))
    (hfresh : now1 - ts < IPO_CACHE_TTL) :
    fetchIPOList apiKey false st now1 now2 net = ⟨.ok d, st, 0⟩ := by
  simp only [fetchIPOList]
  rw [if_neg hk, hc]
  dsimp only
  rw [if_pos (by simp [hfresh])]

theorem ipoList_stale (apiKey : String) (force : Bool) (st : CoreState) (now1 now2 : Int)
    (net : Nat → Except JSError (Option String)) (hk : ¬apiKey = "")
    (d : JVal) (ts : Int) (hc : st.ipoListCache = some (d, ts))
    (hstale : force = true ∨ IPO_CACHE_TTL ≤ now1 - ts) :
    fetchIPOList apiKey force st now1 now2 net = ipoListFetch st now2 net := by
  simp only [fetchIPOList]
  rw [if_neg hk, hc]
  dsimp only
  rw [if_neg ?_]
  rcases hstale with hf | ht
  · simp [hf]
  · have hnl : ¬(now1 - ts < IPO_CACHE_TTL) := not_lt.mpr ht
    simp [hnl]

theorem ipoListFetch_store (st : CoreState) (now2 : Int)
    (net : Nat → Except JSError (Option String)) (v : JVal)
    (h : (ipoListFetch st now2 net).result = .ok v) :
    (ipoListFetch st now2 net).state.ipoListCache = some (v, now2) := by
  rcases ipoListFetch_cases st now2 net with ⟨e, hc⟩ | ⟨v0, hc⟩
  · rw [hc] at h
    simp at h
  · rw [hc] at h
    simp only [Except.ok.injEq] at h
    subst h
    rw [hc]

theorem marketFetch_calls (st : CoreState) (now2 : Int)
    (net : Nat → Except JSError (Option String)) :
    (marketFetch st now2 net).calls = (retryOperation net 3 2000).calls := by
  rcases marketFetch_cases st now2 net with ⟨e, hc⟩ | ⟨v, hc⟩ <;> rw [hc]

theorem screenerFetch_calls (q ck : String) (st : CoreState) (now2 : Int)
    (net : Nat → Except JSError (Option String)) :
    (screenerFetch q ck st now2 net).calls = (retryOperation net 3 2000).calls := by
  rcases screenerFetch_cases q ck st now2 net with ⟨e, hc⟩ | ⟨v, hc⟩ <;> rw [hc]

theorem ipoListFetch_calls (st : CoreState) (now2 : Int)
    (net : Nat → Except JSError (Option String)) :
    (ipoListFetch st now2 net).calls = (retryOperation net 3 2000).calls := by
  rcases ipoListFetch_cases st now2 net with ⟨e, hc⟩ | ⟨v, hc⟩ <;> rw [hc]

theorem marketFetch_result_frame (st st2 : CoreState) (now2 : Int)
    (net : Nat → Except JSError (Option String)) :
    (marketFetch st now2 net).result = (marketFetch st2 now2 net).result := by
  simp only [marketFetch]
  repeat' split
  all_goals rfl

theorem screenerFetch_result_frame (q ck : String) (st st2 : CoreState) (now2 : Int)
    (net : Nat → Except JSError (Option String)) :
    (screenerFetch q ck st now2 net).result = (screenerFetch q ck st2 now2 net).result := by
  simp only [screenerFetch]
  repeat' split
  all_goals rfl

theorem ipoListFetch_result_frame (st st2 : CoreState) (now2 : Int)
    (net : Nat → Except JSError (Option String)) :
    (ipoListFetch st now2 net).result = (ipoListFetch st2 now2 net).result := by
  simp only [ipoListFetch]
  repeat' split
  all_goals rfl

/-- C7: for each cacheable report kind (market overview, screener, IPO
list), a non-forced call while the stored entry's age is under the kind's
TTL returns exactly the cached payload with zero model invocations; once
the TTL has elapsed or when `forceRefresh` is set, the call takes the
fresh-fetch path instead, which performs at least one model invocation,
produces a result independent of any cached payload, and on success stores
the freshly parsed payload (with the new timestamp) where the next lookup
for that key finds it. -/
theorem claim7_cache_ttl
    (apiKey q : String) (st st2 : CoreState) (now1 now2 : Int) (force : Bool)
    (net : Nat → Except JSError (Option String))
    (hk : ¬apiKey = "") :
    (∀ d ts, st.marketCache = some (d, ts) → now1 - ts < MARKET_CACHE_TTL →
      getMarketOverview apiKey false st now1 now2 net = ⟨.ok d, st, 0⟩) ∧
    (∀ d ts, st.marketCache = some (d, ts) →
      (force = true ∨ MARKET_CACHE_TTL ≤ now1 - ts) →
      getMarketOverview apiKey force st now1 now2 net = marketFetch st now2 net) ∧
    1 ≤ (marketFetch st now2 net).calls ∧
    (marketFetch st now2 net).result = (marketFetch st2 now2 net).result ∧
    (∀ v, (marketFetch st now2 net).result = .ok v →
      (marketFetch st now2 net).state.marketCache = some (v, now2)) ∧
    (∀ d ts, List.lookup (getCacheKey q) st.screenerCache = some (d, ts) →
      now1 - ts < SCREENER_CACHE_TTL →
      screenStocks apiKey q false st now1 now2 net =
        ⟨.ok d, { st with lastScreenerQuery := some q }, 0⟩) ∧
    (∀ d ts, List.lookup (getCacheKey q) st.screenerCache = some (d, ts) →
      (force = true ∨ SCREENER_CACHE_TTL ≤ now1 - ts) →
      screenStocks apiKey q force st now1 now2 net =
        screenerFetch q (getCacheKey q) st now2 net) ∧
    1 ≤ (screenerFetch q (getCacheKey q) st now2 net).calls ∧
    (screenerFetch q (getCacheKey q) st now2 net).result =
      (screenerFetch q (getCacheKey q) st2 now2 net).result ∧
    (∀ v, (screenerFetch q (getCacheKey q) st now2 net).result = .ok v →
      List.lookup (getCacheKey q)
        (screenerFetch q (getCacheKey q) st now2 net).state.screenerCache =
        some (v, now2)) ∧
    (∀ d ts, st.ipoListCache = some (d, ts) → now1 - ts < IPO_CACHE_TTL →
      fetchIPOList apiKey false st now1 now2 net = ⟨.ok d, st, 0⟩) ∧
    (∀ d ts, st.ipoListCache = some (d, ts) →
      (force = true ∨ IPO_CACHE_TTL ≤ now1 - ts) →
      fetchIPOList apiKey force st now1 now2 net = ipoListFetch st now2 net) ∧
    1 ≤ (ipoListFetch st now2 net).calls ∧
    (ipoListFetch st now2 net).result = (ipoListFetch st2 now2 net).result ∧
    (∀ v, (ipoListFetch st now2 net).result = .ok v →
      (ipoListFetch st now2 net).state.ipoListCache = some (v, now2)) := by
  refine ⟨fun d ts hc hf => market_hit apiKey st now1 now2 net hk d ts hc hf,
    fun d ts hc hs => market_stale apiKey force st now1 now2 net hk d ts hc hs,
    ?_, marketFetch_result_frame st st2 now2 net,
    fun v h => marketFetch_store st now2 net v h,
    fun d ts hc hf => screener_hit apiKey q st now1 now2 net hk d ts hc hf,
    fun d ts hc hs => screener_stale apiKey q force st now1 now2 net hk d ts hc hs,
    ?_, screenerFetch_result_frame q (getCacheKey q) st st2 now2 net,
    fun v h => screenerFetch_store q (getCacheKey q) st now2 net v h,
    fun d ts hc hf => ipoList_hit apiKey st now1 now2 net hk d ts hc hf,
    fun d ts hc hs => ipoList_stale apiKey force st now1 now2 net hk d ts hc hs,
    ?_, ipoListFetch_result_frame st st2 now2 net,
    fun v h => ipoListFetch_store st now2 net v h⟩
  · rw [marketFetch_calls st now2 net]
    exact retryOperation_calls_ge_one net 2000
  · rw [screenerFetch_calls q (getCacheKey q) st now2 net]
    exact retryOperation_calls_ge_one net 2000
  · rw [ipoListFetch_calls st now2 net]
    exact retryOperation_calls_ge_one net 2000

theorem claim7_witness :
    (¬("k" : String) = "") ∧
    stFull.marketCache = some (.jstr ("m"), 10) ∧
    ((50 : Int) - 10 < MARKET_CACHE_TTL) ∧
    getMarketOverview ("k") false stFull 50 60 netX = ⟨.ok (.jstr ("m")), stFull, 0⟩ ∧
    getMarketOverview ("k") true stFull 50 60 netX = marketFetch stFull 60 netX ∧
    screenStocks ("k") ("q") false stFull 50 60 netX =
      ⟨.ok (.jstr ("s")), { stFull with lastScreenerQuery := some ("q") }, 0⟩ ∧
    fetchIPOList ("k") false stFull 50 60 netX = ⟨.ok (.jstr ("i")), stFull, 0⟩ := by
  have h := claim7_cache_ttl ("k") ("q") stFull (initialState none none) 50 60 true netX
    (by decide)
  refine ⟨by decide, rfl, by decide, ?_, ?_, ?_, ?_⟩
  · exact h.1 (.jstr ("m")) 10 rfl (by decide)
  · exact h.2.1 (.jstr ("m")) 10 rfl (Or.inl rfl)
  · exact h.2.2.2.2.2.1 (.jstr ("s")) 20 rfl (by decide)
  · exact h.2.2.2.2.2.2.2.2.2.2.1 (.jstr ("i")) 30 rfl (by decide)

def ScreenerInv (st : CoreState) : Prop :=
  ∀ q, st.lastScreenerQuery = some q →
    ∃ dt, List.lookup (getCacheKey q) st.screenerCache = some dt

/-- The last-served screener query is recorded and JS-truthy (non-empty). -/
def LastNonempty (st : CoreState) : Prop :=
  ∃ q, st.lastScreenerQuery = some q ∧ ¬q = ""

/-- The operation is not a screener call with the empty-string query. -/
def opQueryNonempty : Op → Prop
  | .screen q _ _ _ _ => ¬q = ""
  | _ => True

theorem getScreenerState_of_none (st : CoreState) (h : st.lastScreenerQuery = none) :
    getScreenerState st = none := by
  unfold getScreenerState
  rw [h]

theorem getScreenerState_eq (st : CoreState) (q : String) (dt : JVal × Int)
    (hq : ¬q = "") (hlast : st.lastScreenerQuery = some q)
    (hlk : List.lookup (getCacheKey q) st.screenerCache = some dt) :
    getScreenerState st = some (q, dt.1) := by
  unfold getScreenerState
  rw [hlast]
  dsimp only
  rw [if_neg hq, hlk]

theorem getMarketOverview_screener_frame (apiKey : String) (force : Bool) (st : CoreState)
    (now1 now2 : Int) (net : Nat → Except JSError (Option String)) :
    (getMarketOverview apiKey force st now1 now2 net).state.screenerCache =
      st.screenerCache ∧
    (getMarketOverview apiKey force st now1 now2 net).state.lastScreenerQuery =
      st.lastScreenerQuery := by
  simp only [getMarketOverview, marketFetch]
  repeat' split
  all_goals exact ⟨rfl, rfl⟩

theorem fetchIPOList_screener_frame (apiKey : String) (force : Bool) (st : CoreState)
    (now1 now2 : Int) (net : Nat → Except JSError (Option String)) :
    (fetchIPOList apiKey force st now1 now2 net).state.screenerCache = st.screenerCache ∧
    (fetchIPOList apiKey force st now1 now2 net).state.lastScreenerQuery =
      st.lastScreenerQuery := by
  simp only [fetchIPOList, ipoListFetch]
  repeat' split
  all_goals exact ⟨rfl, rfl⟩

theorem screenStocks_cases (apiKey q : String) (force : Bool) (st : CoreState)
    (now1 now2 : Int) (net : Nat → Except JSError (Option String)) :
    ((screenStocks apiKey q force st now1 now2 net).state = st ∧
      ∃ e, (screenStocks apiKey q force st now1 now2 net).result = .error e) ∨
    (∃ d, (screenStocks apiKey q force st now1 now2 net).result = .ok d ∧
      (screenStocks apiKey q force st now1 now2 net).state.lastScreenerQuery = some q ∧
      (¬q = "" → getScreenerState (screenStocks apiKey q force st now1 now2 net).state =
        some (q, d))) := by
  simp only [screenStocks]
  split
  · exact Or.inl ⟨rfl, _, rfl⟩
  · split
    · rename_i dt heq
      split
      · refine Or.inr ⟨dt.1, rfl, rfl, fun hq => ?_⟩
        exact getScreenerState_eq _ q dt hq rfl (by dsimp only; exact heq)
      · rcases screenerFetch_cases q (getCacheKey q) st now2 net with ⟨e, hc⟩ | ⟨v, hc⟩
        · rw [hc]
          exact Or.inl ⟨rfl, e, rfl⟩
        · rw [hc]
          refine Or.inr ⟨v, rfl, rfl, fun hq => ?_⟩
          exact getScreenerState_eq _ q (v, now2) hq rfl
            (by dsimp only; exact lookup_setAssoc st.screenerCache (getCacheKey q) (v, now2))
    · rcases screenerFetch_cases q (getCacheKey q) st now2 net with ⟨e, hc⟩ | ⟨v, hc⟩
      · rw [hc]
        exact Or.inl ⟨rfl, e, rfl⟩
      · rw [hc]
        refine Or.inr ⟨v, rfl, rfl, fun hq => ?_⟩
        exact getScreenerState_eq _ q (v, now2) hq rfl
          (by dsimp only; exact lookup_setAssoc st.screenerCache (getCacheKey q) (v, now2))

theorem screenStocks_state_cases (apiKey q : String) (force : Bool) (st : CoreState)
    (now1 now2 : Int) (net : Nat → Except JSError (Option String)) :
    (screenStocks apiKey q force st now1 now2 net).state = st ∨
    ((screenStocks apiKey q force st now1 now2 net).state =
        { st with lastScreenerQuery := some q } ∧
      ∃ dt, List.lookup (getCacheKey q) st.screenerCache = some dt) ∨
    (∃ v, (screenStocks apiKey q force st now1 now2 net).state =
      { st with screenerCache := setAssoc st.screenerCache (getCacheKey q) (v, now2),
                lastScreenerQuery := some q }) := by
  simp only [screenStocks]
  split
  · exact Or.inl rfl
  · split
    · rename_i dt heq
      split
      · exact Or.inr (Or.inl ⟨rfl, dt, heq⟩)
      · rcases screenerFetch_cases q (getCacheKey q) st now2 net with ⟨e, hc⟩ | ⟨v, hc⟩
        · rw [hc]; exact Or.inl rfl
        · rw [hc]; exact Or.inr (Or.inr ⟨v, rfl⟩)
    · rcases screenerFetch_cases q (getCacheKey q) st now2 net with ⟨e, hc⟩ | ⟨v, hc⟩
      · rw [hc]; exact Or.inl rfl
      · rw [hc]; exact Or.inr (Or.inr ⟨v, rfl⟩)

theorem screenerInv_screenStocks (apiKey q : String) (force : Bool) (st : CoreState)
    (now1 now2 : Int) (net : Nat → Except JSError (Option String))
    (hInv : ScreenerInv st) :
    ScreenerInv (screenStocks apiKey q force st now1 now2 net).state := by
  rcases screenStocks_state_cases apiKey q force st now1 now2 net with
    hs | ⟨hs, dt, hlk⟩ | ⟨v, hs⟩
  · rw [hs]; exact hInv
  · rw [hs]
    intro q' hq'
    simp only [Option.some.injEq] at hq'
    subst hq'
    exact ⟨dt, hlk⟩
  · rw [hs]
    intro q' hq'
    simp only [Option.some.injEq] at hq'
    subst hq'
    exact ⟨(v, now2), lookup_setAssoc st.screenerCache (getCacheKey q) (v, now2)⟩

theorem screenerInv_runOp (apiKey : String) (o : Op) (st : CoreState)
    (hInv : ScreenerInv st) : ScreenerInv (runOp apiKey o st).state := by
  cases o with
  | market f n1 n2 net =>
    intro q hq
    have hf := getMarketOverview_screener_frame apiKey f st n1 n2 net
    rw [runOp] at hq ⊢
    rw [hf.2] at hq
    rw [hf.1]
    exact hInv q hq
  | screen q2 f n1 n2 net => exact screenerInv_screenStocks apiKey q2 f st n1 n2 net hInv
  | ipoListOp f n1 n2 net =>
    intro q hq
    have hf := fetchIPOList_screener_frame apiKey f st n1 n2 net
    rw [runOp] at hq ⊢
    rw [hf.2] at hq
    rw [hf.1]
    exact hInv q hq
  | analysisOp t net =>
    intro q hq
    rw [runOp, generateAnalysis_state] at hq ⊢
    exact hInv q hq
  | ipoReportOp nm net =>
    intro q hq
    rw [runOp, generateIPOReport_state] at hq ⊢
    exact hInv q hq

theorem lastNonempty_runOp (apiKey : String) (o : Op) (st : CoreState)
    (h : LastNonempty st) (ho : opQueryNonempty o) :
    LastNonempty (runOp apiKey o st).state := by
  obtain ⟨q, hlast, hq⟩ := h
  cases o with
  | market f n1 n2 net =>
    refine ⟨q, ?_, hq⟩
    rw [runOp, (getMarketOverview_screener_frame apiKey f st n1 n2 net).2]
    exact hlast
  | screen q2 f n1 n2 net =>
    rcases screenStocks_state_cases apiKey q2 f st n1 n2 net with
      hs | ⟨hs, _, _⟩ | ⟨v, hs⟩
    · rw [runOp, hs]; exact ⟨q, hlast, hq⟩
    · rw [runOp, hs]; exact ⟨q2, rfl, ho⟩
    · rw [runOp, hs]; exact ⟨q2, rfl, ho⟩
  | ipoListOp f n1 n2 net =>
    refine ⟨q, ?_, hq⟩
    rw [runOp, (fetchIPOList_screener_frame apiKey f st n1 n2 net).2]
    exact hlast
  | analysisOp t net =>
    refine ⟨q, ?_, hq⟩
    rw [runOp, generateAnalysis_state]
    exact hlast
  | ipoReportOp nm net =>
    refine ⟨q, ?_, hq⟩
    rw [runOp, generateIPOReport_state]
    exact hlast

theorem getScreenerState_ne_none (st : CoreState) (hInv : ScreenerInv st)
    (h : LastNonempty st) : ¬getScreenerState st = none := by
  obtain ⟨q, hlast, hq⟩ := h
  obtain ⟨dt, hlk⟩ := hInv q hlast
  rw [getScreenerState_eq st q dt hq hlast hlk]
  simp

theorem screenerState_never_null_again (apiKey : String) (ops : List Op) :
    ∀ st, ScreenerInv st → LastNonempty st → (∀ o ∈ ops, opQueryNonempty o) →
      ¬getScreenerState (runOps apiKey ops st) = none := by
  induction ops with
  | nil =>
    intro st hInv h _
    exact getScreenerState_ne_none st hInv h
  | cons o rest ih =>
    intro st hInv h hops
    rw [runOps]
    exact ih (runOp apiKey o st).state (screenerInv_runOp apiKey o st hInv)
      (lastNonempty_runOp apiKey o st h (hops o (List.mem_cons_self o rest)))
      (fun o2 ho2 => hops o2 (List.mem_cons_of_mem o ho2))

theorem lastQuery_change_runOp (apiKey : String) (o : Op) (st : CoreState)
    (hch : ¬(runOp apiKey o st).state.lastScreenerQuery = st.lastScreenerQuery) :
    ∃ q f n1 n2 net, o = Op.screen q f n1 n2 net ∧
      (∃ d, (runOp apiKey o st).result = .ok d) ∧
      (runOp apiKey o st).state.lastScreenerQuery = some q := by
  cases o with
  | market f n1 n2 net =>
    rw [runOp] at hch
    exact absurd (getMarketOverview_screener_frame apiKey f st n1 n2 net).2 hch
  | screen q f n1 n2 net =>
    rcases screenStocks_cases apiKey q f st n1 n2 net with ⟨hs, e, he⟩ | ⟨d, hok, hlast, _⟩
    · rw [runOp, hs] at hch
      exact absurd rfl hch
    · exact ⟨q, f, n1, n2, net, rfl, ⟨d, hok⟩, hlast⟩
  | ipoListOp f n1 n2 net =>
    rw [runOp] at hch
    exact absurd (fetchIPOList_screener_frame apiKey f st n1 n2 net).2 hch
  | analysisOp t net =>
    rw [runOp, generateAnalysis_state] at hch
    exact absurd rfl hch
  | ipoReportOp nm net =>
    rw [runOp, generateIPOReport_state] at hch
    exact absurd rfl hch

theorem screenStocks_success (apiKey q : String) (force : Bool) (st : CoreState)
    (now1 now2 : Int) (net : Nat → Except JSError (Option String)) (d : JVal)
    (hq : ¬q = "")
    (h : (screenStocks apiKey q force st now1 now2 net).result = .ok d) :
    (screenStocks apiKey q force st now1 now2 net).state.lastScreenerQuery = some q ∧
    getScreenerState (screenStocks apiKey q force st now1 now2 net).state = some (q, d) := by
  rcases screenStocks_cases apiKey q force st now1 now2 net with
    ⟨hs, e, he⟩ | ⟨d0, hok, hlast, hgss⟩
  · rw [he] at h
    simp at h
  · rw [hok] at h
    simp only [Except.ok.injEq] at h
    subst h
    exact ⟨hlast, hgss hq⟩

/-- A network behaviour answering with a minimal screener JSON object. -/
def netScreenJson : Nat → Except JSError (Option String) :=
  fun _ => .ok (some ("\x7b\"matches\":[]\x7d"))

/-- C10 fails on the code as stated: `screenStocks` has no empty-query
guard, so a call with the empty-string query can complete successfully and
set `lastScreenerQuery` to `""` — which the truthiness guard
`if (lastScreenerQuery)` treats as unset.  Right after that successful
call `getScreenerState` returns `null`, and it returns `null` again even
in a state where a non-empty query had already been served. -/
theorem claim10_counterexample :
    (screenStocks ("k") ("") false (initialState none none) 50 60 netScreenJson).result =
      .ok (.jarr []) ∧
    (screenStocks ("k") ("") false (initialState none none) 50 60
      netScreenJson).state.lastScreenerQuery = some ("") ∧
    getScreenerState
      (screenStocks ("k") ("") false (initialState none none) 50 60 netScreenJson).state =
      none ∧
    getScreenerState stFull = some (("q"), .jstr ("s")) ∧
    getScreenerState (runOps ("k") [Op.screen ("") false 50 60 netScreenJson] stFull) =
      none := by
  exact ⟨rfl, rfl, rfl, rfl, rfl⟩

/-- C10 (amended): `getScreenerState` returns `null` in the initial state
and in any state where no screener query has been recorded; only a
`screenStocks` call that completes successfully changes
`lastScreenerQuery`; after a successful `screenStocks q` with a non-empty
query `q`, the accessor returns the original (un-normalized) query `q`
paired with the data served, i.e. the data cached under `getCacheKey q`;
the invariant "whenever `lastScreenerQuery` is set, the screener cache has
an entry under its normalized key" is preserved by every operation
(entries are never deleted), so once a non-empty query is recorded,
`getScreenerState` never returns `null` again under any sequence of
further operations whose screener queries are all non-empty.  (A later
successful `screenStocks` with the empty-string query makes the
truthiness guard fail and `getScreenerState` return `null` again — see
the counterexample.) -/
theorem claim10_amended_screener_state :
    (∀ sm si, getScreenerState (initialState sm si) = none) ∧
    (∀ st : CoreState, st.lastScreenerQuery = none → getScreenerState st = none) ∧
    (∀ apiKey o st, ¬(runOp apiKey o st).state.lastScreenerQuery = st.lastScreenerQuery →
      ∃ q f n1 n2 net, o = Op.screen q f n1 n2 net ∧
        (∃ d, (runOp apiKey o st).result = .ok d) ∧
        (runOp apiKey o st).state.lastScreenerQuery = some q) ∧
    (∀ apiKey q force st now1 now2 net d, ¬q = "" →
      (screenStocks apiKey q force st now1 now2 net).result = .ok d →
        (screenStocks apiKey q force st now1 now2 net).state.lastScreenerQuery = some q ∧
        getScreenerState (screenStocks apiKey q force st now1 now2 net).state =
          some (q, d)) ∧
    (∀ apiKey (o : Op) st, ScreenerInv st → ScreenerInv (runOp apiKey o st).state) ∧
    (∀ apiKey (ops : List Op) st, ScreenerInv st → LastNonempty st →
      (∀ o ∈ ops, opQueryNonempty o) →
      ¬getScreenerState (runOps apiKey ops st) = none) := by
  refine ⟨fun sm si => rfl, getScreenerState_of_none, lastQuery_change_runOp,
    fun a q f st n1 n2 net d hq h => screenStocks_success a q f st n1 n2 net d hq h,
    screenerInv_runOp,
    fun a ops st hInv h hops => screenerState_never_null_again a ops st hInv h hops⟩

theorem claim10_witness :
    getScreenerState (initialState none none) = none ∧
    (¬("q" : String) = "") ∧
    (screenStocks ("k") ("q") false stFull 50 60 netX).result = .ok (.jstr ("s")) ∧
    (screenStocks ("k") ("q") false stFull 50 60 netX).state.lastScreenerQuery =
      some ("q") ∧
    getScreenerState (screenStocks ("k") ("q") false stFull 50 60 netX).state =
      some (("q"), .jstr ("s")) ∧
    ScreenerInv stFull ∧ LastNonempty stFull ∧
    ¬getScreenerState (runOps ("k") [Op.market false 70 80 netX] stFull) = none := by
  have h := claim10_amended_screener_state
  have hInv : ScreenerInv stFull := by
    intro q2 hq2
    simp only [stFull, Option.some.injEq] at hq2
    subst hq2
    exact ⟨(.jstr ("s"), 20), rfl⟩
  have hne : LastNonempty stFull := ⟨("q"), rfl, by decide⟩
  have hsucc := h.2.2.2.1 ("k") ("q") false stFull 50 60 netX (.jstr ("s"))
    (by decide) rfl
  refine ⟨h.1 none none, by decide, rfl, hsucc.1, hsucc.2, hInv, hne, ?_⟩
  refine h.2.2.2.2.2 ("k") [Op.market false 70 80 netX] stFull hInv hne ?_
  intro o ho
  simp only [List.mem_singleton] at ho
  subst ho
  trivial
